import Mathlib

/-!
# Verification of the Arbisense arbitrage core

A shallow embedding, in Lean 4, of the parts of the Arbisense backend that the
spec's testable properties talk about:

* `backend/app/engines/circuit_breaker.py` — the risk-gate state machine
  (`CircuitBreaker`): state transitions, trade validation, position tracking.
* `backend/app/engines/l2_calculator.py` — the L2 order-book VWAP sizing
  (`calculate_buy_vwap`, `calculate_sell_vwap`, `calculate_arbitrage_vwap`).
* `backend/app/engines/advanced_arbitrage.py` — the pure strategy detectors
  (`detect_single_market_arbitrage`, `detect_three_way_arbitrage`).
* `backend/app/engines/arbitrage_engine.py` — the scanning engine
  (`ArbitrageEngine.scan_for_opportunities` and its helpers).

Modelling conventions:
* Python `float` is modelled by `ℚ` (the claims under study are about
  comparisons and exact rational arithmetic, not about IEEE rounding);
  Python `int` timestamps by `ℤ`; counters by `ℕ`.
* Python `dict[str, V]` is modelled by an association list `List (String × V)`
  with first-match lookup; insertion replaces an existing binding in place or
  appends a fresh one, which preserves Python-dict iteration order.
* Methods that read the wall clock (`datetime.now()`) take the current time as
  an explicit `now` argument; a single Python call that reads the clock more
  than once within a few microseconds is modelled with one `now`.
* Mutating methods are modelled by state-passing: a method on `self` becomes a
  function `State → args → result × State` (or `State → args → State`).
* Python truthiness of `Optional[int]` / `Optional[float]` values
  (`if self.trip_time:`, `if trade_result.gas_cost_usd:`) is modelled
  faithfully: `none` and `some 0` are both falsy.
* Log calls and human-readable f-string payloads are irrelevant to the claims;
  reason strings are kept as the stable prefix of the source's message.
-/

/-! ## Data model: `backend/app/models/arbitrage.py` -/

/-- `CircuitBreakerState` enum: CLOSED (trading enabled), OPEN (tripped),
HALF_OPEN (testing whether conditions improved). -/
inductive CircuitBreakerState where
  | CLOSED
  | OPEN
  | HALF_OPEN
  deriving DecidableEq, Repr

/-- `Platform` enum (only the tag matters to the claims). -/
inductive Platform where
  | POLYMARKET
  | LIMITLESS
  deriving DecidableEq, Repr

/-- `Position` dataclass: open exposure in one market. -/
structure Position where
  id : String
  market_id : String
  question : String
  platform : Platform
  outcome : String
  quantity : ℚ
  avg_entry_price : ℚ
  current_price : ℚ
  cost_basis_usd : ℚ
  current_value_usd : ℚ
  unrealized_pnl_usd : ℚ
  unrealized_pnl_pct : ℚ
  exposure_usd : ℚ
  max_loss_usd : ℚ
  max_gain_usd : ℚ
  opened_at : ℤ
  last_updated : ℤ
  settled_at : Option ℤ := none
  deriving DecidableEq, Repr

/-- `CircuitBreakerConfig` dataclass (defaults from the source). -/
structure CircuitBreakerConfig where
  max_position_per_market : ℚ := 50000
  max_total_position : ℚ := 100000
  max_daily_loss_usd : ℚ := 500
  max_loss_per_trade_usd : ℚ := 5
  max_consecutive_errors : ℕ := 5
  error_cooldown_ms : ℤ := 60000
  gas_buffer_cents : ℤ := 3
  liquidity_factor : ℚ := 1/2
  deriving DecidableEq, Repr

/-- `ValidationResult` dataclass. -/
structure ValidationResult where
  can_execute : Bool
  reason : Option String := none
  deriving DecidableEq, Repr

/-- `TradeResult` dataclass. -/
structure TradeResult where
  success : Bool
  error_message : Option String := none
  execution_time_ms : Option ℤ := none
  actual_slippage_cents : Option ℚ := none
  gas_cost_usd : Option ℚ := none
  position : Option Position := none
  deriving DecidableEq, Repr

/-- `DailyMetrics` dataclass. -/
structure DailyMetrics where
  date : String
  total_trades : ℕ := 0
  successful_trades : ℕ := 0
  failed_trades : ℕ := 0
  total_pnl_usd : ℚ := 0
  max_drawdown_usd : ℚ := 0
  consecutive_errors : ℕ := 0
  total_gas_spent_usd : ℚ := 0
  deriving DecidableEq, Repr

/-! ## Risk gate: `backend/app/engines/circuit_breaker.py` -/

/-- First-match lookup in an association list, modelling `dict.get`. -/
def lookupPos : List (String × Position) → String → Option Position
  | [], _ => none
  | (k, v) :: rest, key => if k = key then some v else lookupPos rest key

/-- The mutable fields of the `CircuitBreaker` instance (`self`). -/
structure CircuitBreaker where
  config : CircuitBreakerConfig
  state : CircuitBreakerState
  positions : List (String × Position)
  daily_metrics : DailyMetrics
  trip_time : Option ℤ
  error_count : ℕ
  last_reset_time : ℤ
  deriving DecidableEq, Repr

/-- `CircuitBreaker._initialize_daily_metrics`: fresh zeroed record for `today`. -/
def initialize_daily_metrics (today : String) : DailyMetrics :=
  { date := today, total_trades := 0, successful_trades := 0, failed_trades := 0,
    total_pnl_usd := 0, max_drawdown_usd := 0, consecutive_errors := 0,
    total_gas_spent_usd := 0 }

/-- `CircuitBreaker.__init__`: CLOSED, empty positions, zeroed daily metrics. -/
def CircuitBreaker.init (config : CircuitBreakerConfig) (today : String) (now : ℤ) :
    CircuitBreaker :=
  { config := config, state := .CLOSED, positions := [],
    daily_metrics := initialize_daily_metrics today, trip_time := none,
    error_count := 0, last_reset_time := now }

/-- `CircuitBreaker._can_reset`: HALF_OPEN may return to CLOSED. -/
def CircuitBreaker.can_reset (cb : CircuitBreaker) : Bool :=
  decide (cb.error_count = 0) &&
  decide (cb.daily_metrics.consecutive_errors < cb.config.max_consecutive_errors) &&
  decide (cb.daily_metrics.total_pnl_usd > -cb.config.max_daily_loss_usd)

/-- Python truthiness of `self.trip_time` combined with the cooldown test:
`self.trip_time and (now_ms - self.trip_time) > self.config.error_cooldown_ms`. -/
def CircuitBreaker.cooldown_elapsed (cb : CircuitBreaker) (now : ℤ) : Bool :=
  match cb.trip_time with
  | none => false
  | some t => decide (t ≠ 0) && decide (now - t > cb.config.error_cooldown_ms)

/-- `CircuitBreaker.get_state`: current state with the two lazy auto-transitions
performed on read — HALF_OPEN→CLOSED when `_can_reset()`, then OPEN→HALF_OPEN
when the cooldown has elapsed since the trip (halving the error count but
keeping it at least 1). -/
def CircuitBreaker.get_state (cb : CircuitBreaker) (now : ℤ) :
    CircuitBreakerState × CircuitBreaker :=
  let cb1 :=
    if cb.state = .HALF_OPEN ∧ cb.can_reset = true then
      { cb with state := .CLOSED, error_count := 0, trip_time := none }
    else cb
  let cb2 :=
    if cb1.state = .OPEN ∧ cb1.cooldown_elapsed now = true then
      { cb1 with state := .HALF_OPEN, error_count := max 1 (cb1.error_count / 2) }
    else cb1
  (cb2.state, cb2)

/-- `CircuitBreaker.can_trade`: trading is allowed in CLOSED and HALF_OPEN. -/
def CircuitBreaker.can_trade (cb : CircuitBreaker) (now : ℤ) : Bool × CircuitBreaker :=
  let r := cb.get_state now
  (decide (r.1 = .CLOSED ∨ r.1 = .HALF_OPEN), r.2)

/-- `CircuitBreaker._trip`: halt trading, record the trip time. -/
def CircuitBreaker.trip (cb : CircuitBreaker) (now : ℤ) : CircuitBreaker :=
  { cb with state := .OPEN, trip_time := some now }

/-- `CircuitBreaker._calculate_total_position`: sum of all position quantities. -/
def CircuitBreaker.calculate_total_position (cb : CircuitBreaker) : ℚ :=
  cb.positions.foldl (fun total p => total + p.2.quantity) 0

/-- The current per-market position size used by `validate_trade`
(`current_position.quantity if current_position else 0`). -/
def CircuitBreaker.market_position (cb : CircuitBreaker) (market_id : String) : ℚ :=
  match lookupPos cb.positions market_id with
  | some p => p.quantity
  | none => 0

/-- `CircuitBreaker.validate_trade`: fail closed when `not self.can_trade()`;
else check, in order, the daily-loss projection (tripping on violation), the
per-trade loss cap, the per-market position cap, and the total position cap. -/
def CircuitBreaker.validate_trade (cb : CircuitBreaker) (market_id : String)
    (trade_size_usd estimated_loss_usd : ℚ) (now : ℤ) :
    ValidationResult × CircuitBreaker :=
  let c := cb.can_trade now
  let cb1 := c.2
  if c.1 = false then
    (⟨false, some "Circuit breaker is open"⟩, cb1)
  else if cb1.daily_metrics.total_pnl_usd - estimated_loss_usd <
      -cb1.config.max_daily_loss_usd then
    (⟨false, some "Daily loss limit would be exceeded"⟩, cb1.trip now)
  else if estimated_loss_usd > cb1.config.max_loss_per_trade_usd then
    (⟨false, some "Per-trade loss limit exceeded"⟩, cb1)
  else if cb1.market_position market_id + trade_size_usd >
      cb1.config.max_position_per_market then
    (⟨false, some "Position limit for market would be exceeded"⟩, cb1)
  else if cb1.calculate_total_position + trade_size_usd >
      cb1.config.max_total_position then
    (⟨false, some "Total position limit would be exceeded"⟩, cb1)
  else
    (⟨true, none⟩, cb1)

/-- `CircuitBreaker._handle_error`: bump both error counters and the failed
count; trip once the live counter reaches `max_consecutive_errors`. -/
def CircuitBreaker.handle_error (cb : CircuitBreaker) (now : ℤ) : CircuitBreaker :=
  let cb1 := { cb with
    error_count := cb.error_count + 1,
    daily_metrics := { cb.daily_metrics with
      consecutive_errors := cb.daily_metrics.consecutive_errors + 1,
      failed_trades := cb.daily_metrics.failed_trades + 1 } }
  if cb1.error_count ≥ cb1.config.max_consecutive_errors then cb1.trip now else cb1

/-- `CircuitBreaker.update_position`: on failure delegate to `_handle_error`;
on success reset both error counters and add the reported position only when
the market has no position yet (`if result.position and not
self.positions.get(market_id)`). -/
def CircuitBreaker.update_position (cb : CircuitBreaker) (market_id : String)
    (result : TradeResult) (now : ℤ) : CircuitBreaker :=
  if result.success = false then cb.handle_error now
  else
    let cb1 := { cb with
      error_count := 0,
      daily_metrics := { cb.daily_metrics with consecutive_errors := 0 } }
    match result.position, lookupPos cb.positions market_id with
    | some p, none => { cb1 with positions := cb1.positions ++ [(market_id, p)] }
    | _, _ => cb1

/-- `CircuitBreaker.record_success`: bump trade counters, add the position's
P&L when a position is reported, add gas spend when it is truthy, and reset
both error counters. -/
def CircuitBreaker.record_success (cb : CircuitBreaker) (result : TradeResult) :
    CircuitBreaker :=
  let dm := cb.daily_metrics
  let dm := { dm with
    successful_trades := dm.successful_trades + 1,
    total_trades := dm.total_trades + 1 }
  let dm :=
    match result.position with
    | some p => { dm with total_pnl_usd := dm.total_pnl_usd + p.unrealized_pnl_usd }
    | none => dm
  let dm :=
    match result.gas_cost_usd with
    | some g =>
      if g ≠ 0 then { dm with total_gas_spent_usd := dm.total_gas_spent_usd + g }
      else dm
    | none => dm
  let dm := { dm with consecutive_errors := 0 }
  { cb with daily_metrics := dm, error_count := 0 }

/-- `CircuitBreaker.manual_reset`: force CLOSED, clear counters and trip time. -/
def CircuitBreaker.manual_reset (cb : CircuitBreaker) : CircuitBreaker :=
  { cb with
    state := .CLOSED,
    error_count := 0,
    trip_time := none,
    daily_metrics := { cb.daily_metrics with consecutive_errors := 0 } }

/-- `CircuitBreaker.manual_trip`: force OPEN via `_trip`. -/
def CircuitBreaker.manual_trip (cb : CircuitBreaker) (now : ℤ) : CircuitBreaker :=
  cb.trip now

/-! ## Execution sizing: `backend/app/engines/l2_calculator.py` -/

/-- `OrderBookLevel` dataclass: one price level (price in cents, size in dollars). -/
structure OrderBookLevel where
  price : ℚ
  size : ℚ
  deriving DecidableEq, Repr

/-- `L2OrderBook` dataclass: best-first bid and ask levels. -/
structure L2OrderBook where
  market_id : String
  token_id : String
  outcome : String
  bids : List OrderBookLevel := []
  asks : List OrderBookLevel := []
  last_update : ℤ := 0
  deriving DecidableEq, Repr

/-- `VWAPResult` dataclass. -/
structure VWAPResult where
  optimal_size : ℚ
  vwap_cents : ℚ
  slippage_cents : ℚ
  total_liquidity : ℚ
  levels_used : ℕ
  execution_cost_usd : ℚ
  deriving DecidableEq, Repr

/-- `OrderbookConfig` (defaults from the source). -/
structure OrderbookConfig where
  liquidity_factor : ℚ := 1/2
  max_slippage_cents : ℤ := 2
  max_depth : ℕ := 5
  min_liquidity : ℚ := 50
  deriving DecidableEq, Repr

/-- `np.cumsum`: running sums of a list. -/
def cumsum (xs : List ℚ) : List ℚ :=
  go 0 xs
where
  go (acc : ℚ) : List ℚ → List ℚ
    | [] => []
    | x :: rest => (acc + x) :: go (acc + x) rest

/-- Python `round(x, 1)` on the reported VWAP/slippage (the source's
half-to-even tie behaviour differs from `round`'s half-up only at exact
multiples of 0.05, which none of the claims touch). -/
def roundTo1 (q : ℚ) : ℚ := (round (10 * q) : ℤ) / 10

/-- Index of the deepest (`valid_indices[-1]`) prefix satisfying the slippage
mask, over the `(cumulative_cost, cumulative_size)` pairs.  A prefix with zero
cumulative size is never valid: numpy produces `nan`/`inf` there (under
`errstate ignore`) and the `<=` mask is false. -/
def lastValidIdx (valid : ℚ × ℚ → Bool) (pairs : List (ℚ × ℚ)) : Option ℕ :=
  ((pairs.enum.filter fun ip => valid ip.2).map fun ip => ip.1).getLast?

/-- The buy-side slippage mask at one `(cumulative_cost, cumulative_size)`
prefix: `vwap - best_ask <= max_slippage_cents`. -/
def buyValid (best_ask : ℚ) (max_slippage_cents : ℤ) (p : ℚ × ℚ) : Bool :=
  decide (p.2 ≠ 0) && decide (p.1 / p.2 - best_ask ≤ (max_slippage_cents : ℚ))

/-- The sell-side slippage mask: `best_bid - vwap <= max_slippage_cents`. -/
def sellValid (best_bid : ℚ) (max_slippage_cents : ℤ) (p : ℚ × ℚ) : Bool :=
  decide (p.2 ≠ 0) && decide (best_bid - p.1 / p.2 ≤ (max_slippage_cents : ℚ))

/-- The all-zero `VWAPResult` returned for empty books and zero best prices. -/
def zeroVWAP : VWAPResult :=
  { optimal_size := 0, vwap_cents := 0, slippage_cents := 0,
    total_liquidity := 0, levels_used := 0, execution_cost_usd := 0 }

/-- `calculate_buy_vwap`: walk up the ask side, apply the liquidity factor,
find the deepest prefix within the slippage tolerance, and cap the size at the
target. -/
def calculate_buy_vwap (orderbook : L2OrderBook) (target_size_dollars : ℚ)
    (config : OrderbookConfig) : VWAPResult :=
  match orderbook.asks with
  | [] => zeroVWAP
  | top :: _ =>
    let best_ask := top.price
    if best_ask = 0 then zeroVWAP
    else
      let levels := orderbook.asks.take config.max_depth
      let adjusted_sizes := levels.map fun l => l.size * config.liquidity_factor
      let cumulative_sizes := cumsum adjusted_sizes
      let cumulative_costs :=
        cumsum (levels.map fun l => l.price * (l.size * config.liquidity_factor))
      match lastValidIdx (buyValid best_ask config.max_slippage_cents)
          (cumulative_costs.zip cumulative_sizes) with
      | none => { zeroVWAP with vwap_cents := best_ask }
      | some max_valid_idx =>
        let cs := cumulative_sizes.getD max_valid_idx 0
        let cc := cumulative_costs.getD max_valid_idx 0
        let final_vwap := cc / cs
        let final_slippage := final_vwap - best_ask
        let optimal_size := min cs target_size_dollars
        { optimal_size := optimal_size,
          vwap_cents := roundTo1 final_vwap,
          slippage_cents := roundTo1 final_slippage,
          total_liquidity := cs,
          levels_used := max_valid_idx + 1,
          execution_cost_usd := optimal_size * final_vwap / 100 }

/-- `calculate_sell_vwap`: walk down the bid side; slippage is
`best_bid - vwap`. -/
def calculate_sell_vwap (orderbook : L2OrderBook) (target_size_dollars : ℚ)
    (config : OrderbookConfig) : VWAPResult :=
  match orderbook.bids with
  | [] => zeroVWAP
  | top :: _ =>
    let best_bid := top.price
    if best_bid = 0 then zeroVWAP
    else
      let levels := orderbook.bids.take config.max_depth
      let adjusted_sizes := levels.map fun l => l.size * config.liquidity_factor
      let cumulative_sizes := cumsum adjusted_sizes
      let cumulative_costs :=
        cumsum (levels.map fun l => l.price * (l.size * config.liquidity_factor))
      match lastValidIdx (sellValid best_bid config.max_slippage_cents)
          (cumulative_costs.zip cumulative_sizes) with
      | none => { zeroVWAP with vwap_cents := best_bid }
      | some max_valid_idx =>
        let cs := cumulative_sizes.getD max_valid_idx 0
        let cc := cumulative_costs.getD max_valid_idx 0
        let final_vwap := cc / cs
        let final_slippage := best_bid - final_vwap
        let optimal_size := min cs target_size_dollars
        { optimal_size := optimal_size,
          vwap_cents := roundTo1 final_vwap,
          slippage_cents := roundTo1 final_slippage,
          total_liquidity := cs,
          levels_used := max_valid_idx + 1,
          execution_cost_usd := optimal_size * final_vwap / 100 }

/-- The dictionary returned by `calculate_arbitrage_vwap`. -/
structure ArbitrageVWAP where
  yes_leg : VWAPResult
  no_leg : VWAPResult
  combined_optimal_size : ℚ
  total_slippage_cents : ℚ
  can_execute : Bool
  deriving DecidableEq, Repr

/-- `calculate_arbitrage_vwap`: both legs at the same target; combined size is
the smaller leg; slippage adds; executable iff the combined size reaches
`min_liquidity` and the summed slippage fits twice the per-leg allowance. -/
def calculate_arbitrage_vwap (yes_orderbook no_orderbook : L2OrderBook)
    (target_size_dollars : ℚ) (config : OrderbookConfig) : ArbitrageVWAP :=
  let yes_leg := calculate_buy_vwap yes_orderbook target_size_dollars config
  let no_leg := calculate_buy_vwap no_orderbook target_size_dollars config
  let combined_optimal_size := min yes_leg.optimal_size no_leg.optimal_size
  let total_slippage_cents := yes_leg.slippage_cents + no_leg.slippage_cents
  { yes_leg := yes_leg,
    no_leg := no_leg,
    combined_optimal_size := combined_optimal_size,
    total_slippage_cents := total_slippage_cents,
    can_execute :=
      decide (combined_optimal_size ≥ config.min_liquidity) &&
      decide (total_slippage_cents ≤ (config.max_slippage_cents : ℚ) * 2) }

/-- The target-independent part of `calculate_buy_vwap`: the cumulative
(liquidity-factor-adjusted) size at the deepest ask prefix whose slippage is
within tolerance, or `none` on an empty/zero-priced/no-valid-prefix book.
`calculate_buy_vwap` returns `min` of this and the target
(`buy_optimal_eq_depthLimit`). -/
def buyDepthLimit (orderbook : L2OrderBook) (config : OrderbookConfig) : Option ℚ :=
  match orderbook.asks with
  | [] => none
  | top :: _ =>
    let best_ask := top.price
    if best_ask = 0 then none
    else
      let levels := orderbook.asks.take config.max_depth
      let adjusted_sizes := levels.map fun l => l.size * config.liquidity_factor
      let cumulative_sizes := cumsum adjusted_sizes
      let cumulative_costs :=
        cumsum (levels.map fun l => l.price * (l.size * config.liquidity_factor))
      match lastValidIdx (buyValid best_ask config.max_slippage_cents)
          (cumulative_costs.zip cumulative_sizes) with
      | none => none
      | some max_valid_idx => some (cumulative_sizes.getD max_valid_idx 0)

/-- Target-independent part of `calculate_sell_vwap`, mirroring
`buyDepthLimit` on the bid side. -/
def sellDepthLimit (orderbook : L2OrderBook) (config : OrderbookConfig) : Option ℚ :=
  match orderbook.bids with
  | [] => none
  | top :: _ =>
    let best_bid := top.price
    if best_bid = 0 then none
    else
      let levels := orderbook.bids.take config.max_depth
      let adjusted_sizes := levels.map fun l => l.size * config.liquidity_factor
      let cumulative_sizes := cumsum adjusted_sizes
      let cumulative_costs :=
        cumsum (levels.map fun l => l.price * (l.size * config.liquidity_factor))
      match lastValidIdx (sellValid best_bid config.max_slippage_cents)
          (cumulative_costs.zip cumulative_sizes) with
      | none => none
      | some max_valid_idx => some (cumulative_sizes.getD max_valid_idx 0)

/-! ## Strategy detectors: `backend/app/engines/advanced_arbitrage.py` -/

/-- `ArbitrageOpportunity` dataclass from `backend/app/models/arbitrage.py`
(the variant the advanced detectors construct); `direction` and `action` are
plain strings there. Defaults from the source. -/
structure ArbitrageOpportunity where
  id : String
  polymarket_market_id : String
  polymarket_question : String
  limitless_pool : Option String := none
  polymarket_yes_price : ℚ := 0
  polymarket_no_price : ℚ := 0
  limitless_price : Option ℚ := none
  spread_pct : ℚ := 0
  spread_absolute : ℚ := 0
  direction : String := "poly_internal"
  action : String := ""
  gross_profit_pct : ℚ := 0
  estimated_gas_cost : ℚ := 0
  platform_fees : ℚ := 0
  net_profit_pct : ℚ := 0
  net_profit_usd : ℚ := 0
  min_size : ℚ := 10
  max_size : ℚ := 1000
  available_liquidity : ℚ := 0
  slippage_estimate : ℚ := 0
  confidence : ℚ := 0
  risk_score : ℕ := 5
  discovered_at : ℤ := 0
  expires_at : Option ℤ := none
  time_sensitive : Bool := false
  status : String := "active"
  deriving DecidableEq, Repr

/-- `SingleMarket` dataclass: one binary market, prices in cents. -/
structure SingleMarket where
  condition_id : String
  question : String
  yes_price : ℚ
  no_price : ℚ
  liquidity : ℚ
  deriving DecidableEq, Repr

/-- `TeamOutcome` dataclass of a three-way market. -/
structure TeamOutcome where
  token_id : String
  yes_price : ℚ
  no_price : ℚ
  deriving DecidableEq, Repr

/-- `DrawOutcome` dataclass of a three-way market. -/
structure DrawOutcome where
  token_id : String
  yes_price : ℚ
  deriving DecidableEq, Repr

/-- `ThreeWayMarket` dataclass (home/away/draw). -/
structure ThreeWayMarket where
  condition_id : String
  question : String
  home_team : TeamOutcome
  away_team : TeamOutcome
  draw : DrawOutcome
  liquidity : ℚ
  event_id : Option String := none
  deriving DecidableEq, Repr

/-- `detect_single_market_arbitrage`: emit an opportunity iff
`yes_price + no_price + fees_cents < 100`; profit is the shortfall, in cents
(`net_profit_usd` divides by 100). -/
def detect_single_market_arbitrage (market : SingleMarket) (fees_cents : ℤ)
    (now : ℤ) : Option ArbitrageOpportunity :=
  let total_cost := market.yes_price + market.no_price + (fees_cents : ℚ)
  if total_cost ≥ 100 then none
  else
    let profit_cents := 100 - total_cost
    let profit_usd := profit_cents / 100
    some
      { id := "single-" ++ market.condition_id,
        polymarket_market_id := market.condition_id,
        polymarket_question := market.question,
        polymarket_yes_price := market.yes_price / 100,
        polymarket_no_price := market.no_price / 100,
        spread_pct := profit_cents,
        spread_absolute := profit_usd,
        direction := "poly_internal",
        action := "buy_poly_yes",
        gross_profit_pct := profit_cents,
        estimated_gas_cost := (fees_cents : ℚ) / 100,
        platform_fees := 0,
        net_profit_pct := profit_cents,
        net_profit_usd := profit_usd,
        min_size := 10,
        max_size := market.liquidity * (1/2),
        available_liquidity := market.liquidity,
        slippage_estimate := 1/10,
        confidence := 95/100,
        risk_score := 1,
        discovered_at := now,
        time_sensitive := true,
        status := "active" }

/-- `detect_three_way_arbitrage`: price both legal combinations
(`home.yes + away.no + draw.yes` and `away.yes + home.no + draw.yes`), keep
the cheaper (ties go to option 2, exactly as `if option1_cost < option2_cost`),
add fees, and emit iff the total is strictly below 100¢. -/
def detect_three_way_arbitrage (market : ThreeWayMarket) (fees_cents : ℤ)
    (now : ℤ) : Option ArbitrageOpportunity :=
  let home_team := market.home_team
  let away_team := market.away_team
  let draw := market.draw
  let option1_cost := home_team.yes_price + away_team.no_price + draw.yes_price
  let option2_cost := away_team.yes_price + home_team.no_price + draw.yes_price
  let pick :=
    if option1_cost < option2_cost then
      (option1_cost, "buy_poly_yes", home_team.yes_price, away_team.no_price)
    else
      (option2_cost, "buy_poly_no", away_team.yes_price, home_team.no_price)
  let total_cost := pick.1 + (fees_cents : ℚ)
  if total_cost ≥ 100 then none
  else
    let profit_cents := 100 - total_cost
    let profit_usd := profit_cents / 100
    some
      { id := "three-way-" ++ market.condition_id,
        polymarket_market_id := market.condition_id,
        polymarket_question := market.question,
        polymarket_yes_price := pick.2.2.1 / 100,
        polymarket_no_price := pick.2.2.2 / 100,
        spread_pct := profit_cents,
        spread_absolute := profit_usd,
        direction := "poly_internal",
        action := pick.2.1,
        gross_profit_pct := profit_cents,
        estimated_gas_cost := (fees_cents : ℚ) / 100,
        platform_fees := 0,
        net_profit_pct := profit_cents,
        net_profit_usd := profit_usd,
        min_size := 25,
        max_size := market.liquidity * (4/10),
        available_liquidity := market.liquidity,
        slippage_estimate := 3/10,
        confidence := 7/10,
        risk_score := 6,
        discovered_at := now,
        time_sensitive := true,
        status := "active" }

/-! ## Scanning engine: `backend/app/engines/arbitrage_engine.py`

The engine module defines its own `ArbitrageOpportunity`/`ArbitrageSignal`/
`ArbitrageAlert` dataclasses and enums; they live in the `ArbEngine`
namespace here. Human-readable display payloads (the `rationale`, alert
`title`/`message` f-strings and the alert `details` dict) carry no decision
logic and are elided to fixed placeholders. Callback hooks
(`on_opportunity`, `on_signal`, `on_alert`) perform no state mutation and are
dropped. -/

/-- First-match lookup in an association list (`dict.get`). -/
def alistLookup {α : Type} : List (String × α) → String → Option α
  | [], _ => none
  | (k, v) :: rest, key => if k = key then some v else alistLookup rest key

/-- `d[key] = v` on a Python dict: replace in place if present, append if new
(Python dicts keep insertion order). -/
def alistInsert {α : Type} : List (String × α) → String → α → List (String × α)
  | [], key, v => [(key, v)]
  | (k, w) :: rest, key, v =>
    if k = key then (k, v) :: rest else (k, w) :: alistInsert rest key v

namespace ArbEngine

/-- `ArbitrageDirection` enum. -/
inductive ArbitrageDirection where
  | POLY_TO_LIMITLESS
  | LIMITLESS_TO_POLY
  | POLY_INTERNAL
  deriving DecidableEq, Repr

/-- `SignalStrength` enum. -/
inductive SignalStrength where
  | WEAK
  | MODERATE
  | STRONG
  | VERY_STRONG
  deriving DecidableEq, Repr

/-- `AlertPriority` enum. -/
inductive AlertPriority where
  | INFO
  | LOW
  | MEDIUM
  | HIGH
  | CRITICAL
  deriving DecidableEq, Repr

/-- The engine's `ArbitrageOpportunity` dataclass (defaults from the source). -/
structure ArbitrageOpportunity where
  id : String
  polymarket_market_id : String
  polymarket_question : String
  limitless_pool : Option String := none
  polymarket_yes_price : ℚ := 0
  polymarket_no_price : ℚ := 0
  limitless_price : Option ℚ := none
  spread_pct : ℚ := 0
  spread_absolute : ℚ := 0
  direction : ArbitrageDirection := .POLY_INTERNAL
  action : String := ""
  gross_profit_pct : ℚ := 0
  estimated_gas_cost : ℚ := 0
  platform_fees : ℚ := 0
  net_profit_pct : ℚ := 0
  net_profit_usd : ℚ := 0
  min_size : ℚ := 10
  max_size : ℚ := 1000
  available_liquidity : ℚ := 0
  slippage_estimate : ℚ := 0
  confidence : ℚ := 0
  risk_score : ℕ := 5
  discovered_at : ℤ := 0
  expires_at : Option ℤ := none
  time_sensitive : Bool := false
  status : String := "active"
  deriving DecidableEq, Repr

/-- `ArbitrageSignal` dataclass. -/
structure ArbitrageSignal where
  id : String
  opportunity_id : String
  type : String
  strength : SignalStrength := .MODERATE
  confidence_score : ℚ := 0
  entry_price : Option ℚ := none
  exit_price : Option ℚ := none
  target_profit_pct : Option ℚ := none
  stop_loss_pct : Option ℚ := none
  recommendation : String := ""
  rationale : String := ""
  generated_at : ℤ := 0
  valid_until : ℤ := 0
  status : String := "active"
  deriving DecidableEq, Repr

/-- `ArbitrageAlert` dataclass (the free-form `details` display dict elided). -/
structure ArbitrageAlert where
  id : String
  priority : AlertPriority
  category : String
  title : String
  message : String
  opportunity_id : Option String := none
  created_at : ℤ := 0
  acknowledged : Bool := false
  deriving DecidableEq, Repr

/-- `ArbitrageConfig` dataclass (defaults from the source). -/
structure ArbitrageConfig where
  min_spread_pct : ℚ := 1/2
  min_profit_usd : ℚ := 1
  max_risk_score : ℕ := 8
  min_trade_size_usd : ℚ := 10
  max_trade_size_usd : ℚ := 10000
  polymarket_fee_pct : ℚ := 3/10
  limitless_fee_pct : ℚ := 3/10
  default_slippage_pct : ℚ := 1/10
  base_gas_cost_usd : ℚ := 1/2
  max_gas_cost_usd : ℚ := 5
  signal_validity_seconds : ℤ := 60
  stale_data_threshold_ms : ℤ := 5000
  high_spread_threshold_pct : ℚ := 2
  deriving DecidableEq, Repr

/-- A `polymarket_prices[market_id]` cache entry. -/
structure PolyPriceEntry where
  yes_price : ℚ
  no_price : ℚ
  question : String
  liquidity : ℚ
  updated_at : ℤ
  deriving DecidableEq, Repr

/-- A `limitless_prices[pool_address]` cache entry. -/
structure LimitlessPriceEntry where
  price : ℚ
  pair : String
  liquidity : ℚ
  updated_at : ℤ
  deriving DecidableEq, Repr

/-- The engine state an `ArbitrageEngine` instance carries across `scan()`
calls (callbacks and the asyncio runner fields dropped). -/
structure EngineState where
  config : ArbitrageConfig
  opportunities : List (String × ArbitrageOpportunity) := []
  signals : List ArbitrageSignal := []
  alerts : List ArbitrageAlert := []
  asset_mappings : List (String × String) := []
  polymarket_prices : List (String × PolyPriceEntry) := []
  limitless_prices : List (String × LimitlessPriceEntry) := []
  total_opportunities_found : ℕ := 0
  profitable_opportunities_count : ℕ := 0
  opportunity_counter : ℕ := 0
  signal_counter : ℕ := 0
  alert_counter : ℕ := 0
  deriving DecidableEq, Repr

/-- `ArbitrageEngine._is_data_stale`. -/
def is_data_stale (config : ArbitrageConfig) (updated_at now : ℤ) : Bool :=
  decide (now - updated_at > config.stale_data_threshold_ms)

/-- The dictionary `_calculate_profit` returns. -/
structure ProfitBreakdown where
  gross_profit_pct : ℚ
  gross_profit_usd : ℚ
  fees : ℚ
  gas_cost : ℚ
  net_profit_usd : ℚ
  net_profit_pct : ℚ
  deriving DecidableEq, Repr

/-- `ArbitrageEngine._calculate_profit`: fee-adjusted profit for a given
entry/exit price and size; gas doubles for cross-platform directions. -/
def calculate_profit (config : ArbitrageConfig) (entry_price exit_price size_usd : ℚ)
    (direction : ArbitrageDirection) : ProfitBreakdown :=
  let gross_spread := exit_price - entry_price
  let gross_profit_pct := if entry_price > 0 then gross_spread / entry_price * 100 else 0
  let gross_profit_usd := if entry_price > 0 then size_usd * (gross_spread / entry_price) else 0
  let entry_fee := size_usd * (config.polymarket_fee_pct / 100)
  let exit_fee := size_usd *
    (if direction ≠ .POLY_INTERNAL then config.limitless_fee_pct / 100
     else config.polymarket_fee_pct / 100)
  let slippage := size_usd * (config.default_slippage_pct / 100)
  let gas_cost :=
    if direction ≠ .POLY_INTERNAL then config.base_gas_cost_usd * 2
    else config.base_gas_cost_usd
  let total_fees := entry_fee + exit_fee + slippage
  let total_costs := total_fees + gas_cost
  let net_profit_usd := gross_profit_usd - total_costs
  let net_profit_pct := if size_usd > 0 then net_profit_usd / size_usd * 100 else 0
  { gross_profit_pct := gross_profit_pct, gross_profit_usd := gross_profit_usd,
    fees := total_fees, gas_cost := gas_cost,
    net_profit_usd := net_profit_usd, net_profit_pct := net_profit_pct }

/-- `ArbitrageEngine._calculate_confidence`. -/
def calculate_confidence (spread_pct liquidity : ℚ) : ℚ :=
  min (spread_pct / 5) 1 * (6/10) + min (liquidity / 10000) 1 * (4/10)

/-- `ArbitrageEngine._calculate_risk_score`. -/
def calculate_risk_score (spread_pct liquidity : ℚ) : ℕ :=
  if spread_pct > 10 then 9
  else
    let liquidity_risk : ℕ := if liquidity < 1000 then 3 else if liquidity < 10000 then 2 else 1
    min 10 (max 1 (3 + liquidity_risk))

/-- `ArbitrageEngine._check_polymarket_internal`: Yes+No mispricing on one
Polymarket market. Threads `self._opportunity_counter`, which the source
increments on every emitted opportunity and embeds in the opportunity id. -/
def check_polymarket_internal (config : ArbitrageConfig) (counter : ℕ)
    (market_id : String) (d : PolyPriceEntry) (now : ℤ) :
    Option ArbitrageOpportunity × ℕ :=
  let yes_price := d.yes_price
  let no_price := d.no_price
  if yes_price ≤ 0 ∨ no_price ≤ 0 then (none, counter)
  else
    let total := yes_price + no_price
    let spread := |1 - total|
    let spread_pct := spread * 100
    if spread_pct < config.min_spread_pct then (none, counter)
    else if total ≥ 1 then (none, counter)
    else
      let gross_profit_pct := (1 - total) / total * 100
      let profit := calculate_profit config total 1 100 .POLY_INTERNAL
      if profit.net_profit_usd < config.min_profit_usd then (none, counter)
      else
        let c := counter + 1
        (some
          { id := s!"poly_internal_{market_id}_{c}",
            polymarket_market_id := market_id,
            polymarket_question := d.question,
            polymarket_yes_price := yes_price,
            polymarket_no_price := no_price,
            spread_pct := spread_pct,
            spread_absolute := spread,
            direction := .POLY_INTERNAL,
            action := "buy_both",
            gross_profit_pct := gross_profit_pct,
            estimated_gas_cost := profit.gas_cost,
            platform_fees := profit.fees,
            net_profit_pct := profit.net_profit_pct,
            net_profit_usd := profit.net_profit_usd,
            available_liquidity := d.liquidity,
            confidence := calculate_confidence spread_pct d.liquidity,
            risk_score := calculate_risk_score spread_pct d.liquidity,
            discovered_at := now,
            time_sensitive := decide (spread_pct > 1) }, c)

/-- `ArbitrageEngine._check_cross_platform`: spread between the Polymarket yes
price and the Limitless price for a mapped pair. -/
def check_cross_platform (config : ArbitrageConfig) (counter : ℕ)
    (poly_id : String) (poly_data : PolyPriceEntry) (limitless_pool : String)
    (limitless_data : LimitlessPriceEntry) (now : ℤ) :
    Option ArbitrageOpportunity × ℕ :=
  let poly_yes := poly_data.yes_price
  let limitless_price := limitless_data.price
  if poly_yes ≤ 0 ∨ limitless_price ≤ 0 then (none, counter)
  else
    let spread := |poly_yes - limitless_price|
    let spread_pct := spread / min poly_yes limitless_price * 100
    if spread_pct < config.min_spread_pct then (none, counter)
    else
      let direction :=
        if poly_yes < limitless_price then ArbitrageDirection.POLY_TO_LIMITLESS
        else ArbitrageDirection.LIMITLESS_TO_POLY
      let action := if poly_yes < limitless_price then "buy_poly_yes" else "buy_limitless"
      let entry_price := min poly_yes limitless_price
      let exit_price := max poly_yes limitless_price
      let profit := calculate_profit config entry_price exit_price 100 direction
      if profit.net_profit_usd < config.min_profit_usd then (none, counter)
      else
        let c := counter + 1
        (some
          { id := s!"cross_{poly_id}_{c}",
            polymarket_market_id := poly_id,
            polymarket_question := poly_data.question,
            limitless_pool := some limitless_pool,
            polymarket_yes_price := poly_yes,
            polymarket_no_price := poly_data.no_price,
            limitless_price := some limitless_price,
            spread_pct := spread_pct,
            spread_absolute := spread,
            direction := direction,
            action := action,
            gross_profit_pct := profit.gross_profit_pct,
            estimated_gas_cost := profit.gas_cost,
            platform_fees := profit.fees,
            net_profit_pct := profit.net_profit_pct,
            net_profit_usd := profit.net_profit_usd,
            available_liquidity := min poly_data.liquidity limitless_data.liquidity,
            confidence := calculate_confidence spread_pct
              (min poly_data.liquidity limitless_data.liquidity),
            risk_score := calculate_risk_score spread_pct
              (min poly_data.liquidity limitless_data.liquidity),
            discovered_at := now,
            time_sensitive := true }, c)

/-- `ArbitrageEngine._generate_signal` (threads `self._signal_counter`). -/
def generate_signal (config : ArbitrageConfig) (counter : ℕ)
    (opportunity : ArbitrageOpportunity) (now : ℤ) : ArbitrageSignal × ℕ :=
  let c := counter + 1
  let strength : SignalStrength :=
    if opportunity.net_profit_pct ≥ 2 then .VERY_STRONG
    else if opportunity.net_profit_pct ≥ 1 then .STRONG
    else if opportunity.net_profit_pct ≥ 1/2 then .MODERATE
    else .WEAK
  let recommendation :=
    if opportunity.risk_score ≤ 3 ∧ opportunity.confidence ≥ 7/10 then "execute"
    else if opportunity.risk_score ≤ 5 then "wait"
    else "skip"
  ({ id := s!"sig_{c}",
     opportunity_id := opportunity.id,
     type := "entry",
     strength := strength,
     confidence_score := opportunity.confidence * 100,
     entry_price := some opportunity.polymarket_yes_price,
     target_profit_pct := some opportunity.net_profit_pct,
     stop_loss_pct := some (-opportunity.net_profit_pct * (1/2)),
     recommendation := recommendation,
     rationale := "spread and profit summary",
     generated_at := now,
     valid_until := now + config.signal_validity_seconds * 1000,
     status := "active" }, c)

/-- `ArbitrageEngine._generate_alert` (threads `self._alert_counter`). -/
def generate_alert (config : ArbitrageConfig) (counter : ℕ)
    (opportunity : ArbitrageOpportunity) (alert_type : String) (now : ℤ) :
    ArbitrageAlert × ℕ :=
  let c := counter + 1
  let priority : AlertPriority :=
    if opportunity.spread_pct ≥ config.high_spread_threshold_pct then .HIGH
    else if opportunity.net_profit_pct ≥ 1 then .MEDIUM
    else .LOW
  ({ id := s!"alert_{c}",
     priority := priority,
     category := alert_type,
     title := "Arbitrage spread alert",
     message := opportunity.polymarket_question.take 50,
     opportunity_id := some opportunity.id,
     created_at := now }, c)

/-- `ArbitrageEngine._on_new_opportunity`: one signal always; one alert when
the spread reaches the high-spread threshold. -/
def on_new_opportunity (e : EngineState) (opportunity : ArbitrageOpportunity)
    (now : ℤ) : EngineState :=
  let sig := generate_signal e.config e.signal_counter opportunity now
  let e1 := { e with signals := e.signals ++ [sig.1], signal_counter := sig.2 }
  if opportunity.spread_pct ≥ e1.config.high_spread_threshold_pct then
    let al := generate_alert e1.config e1.alert_counter opportunity "opportunity" now
    { e1 with alerts := e1.alerts ++ [al.1], alert_counter := al.2 }
  else e1

/-- The Polymarket-internal half of the scan loop: visit each cached market in
order, skip stale entries, thread the opportunity counter. -/
def scan_internal (config : ArbitrageConfig) (now : ℤ) :
    ℕ → List (String × PolyPriceEntry) → List ArbitrageOpportunity × ℕ
  | c, [] => ([], c)
  | c, (market_id, d) :: rest =>
    if is_data_stale config d.updated_at now then scan_internal config now c rest
    else
      match check_polymarket_internal config c market_id d now with
      | (some opp, c') =>
        let r := scan_internal config now c' rest
        (opp :: r.1, r.2)
      | (none, c') => scan_internal config now c' rest

/-- The cross-platform half of the scan loop: visit each asset mapping, skip
pairs with a missing or stale side. -/
def scan_cross (config : ArbitrageConfig) (now : ℤ)
    (polymarket_prices : List (String × PolyPriceEntry))
    (limitless_prices : List (String × LimitlessPriceEntry)) :
    ℕ → List (String × String) → List ArbitrageOpportunity × ℕ
  | c, [] => ([], c)
  | c, (poly_id, limitless_pool) :: rest =>
    match alistLookup polymarket_prices poly_id,
        alistLookup limitless_prices limitless_pool with
    | some poly_data, some limitless_data =>
      if is_data_stale config poly_data.updated_at now ∨
          is_data_stale config limitless_data.updated_at now then
        scan_cross config now polymarket_prices limitless_prices c rest
      else
        match check_cross_platform config c poly_id poly_data limitless_pool
            limitless_data now with
        | (some opp, c') =>
          let r := scan_cross config now polymarket_prices limitless_prices c' rest
          (opp :: r.1, r.2)
        | (none, c') => scan_cross config now polymarket_prices limitless_prices c' rest
    | _, _ => scan_cross config now polymarket_prices limitless_prices c rest

/-- The per-opportunity tail of `scan_for_opportunities`: store the
opportunity under its id; an unseen id counts as new and emits signal/alert;
a seen id whose spread moved more than 0.1 percentage points is an update
(`_on_opportunity_update` only fires callbacks, so both update branches leave
the engine state unchanged beyond the stored opportunity). -/
def process_opportunity (e : EngineState) (opp : ArbitrageOpportunity) (now : ℤ) :
    EngineState :=
  let existing := alistLookup e.opportunities opp.id
  let e1 := { e with opportunities := alistInsert e.opportunities opp.id opp }
  match existing with
  | none =>
    on_new_opportunity
      { e1 with total_opportunities_found := e1.total_opportunities_found + 1 } opp now
  | some prev =>
    if |opp.spread_pct - prev.spread_pct| > 1/10 then e1 else e1

/-- `ArbitrageEngine.scan_for_opportunities`: collect fresh internal and
cross-platform opportunities, then fold them through the dedup/signal/alert
bookkeeping. -/
def scan_for_opportunities (e : EngineState) (now : ℤ) :
    List ArbitrageOpportunity × EngineState :=
  let ri := scan_internal e.config now e.opportunity_counter e.polymarket_prices
  let rc := scan_cross e.config now e.polymarket_prices e.limitless_prices
    ri.2 e.asset_mappings
  let opportunities := ri.1 ++ rc.1
  let e1 := { e with opportunity_counter := rc.2 }
  let e2 := opportunities.foldl (fun acc opp => process_opportunity acc opp now) e1
  (opportunities, e2)

end ArbEngine

/-! ## Theorems

### Risk-gate helper lemmas -/

theorem get_state_of_closed (cb : CircuitBreaker) (now : ℤ) (h : cb.state = .CLOSED) :
    cb.get_state now = (.CLOSED, cb) := by
  simp [CircuitBreaker.get_state, h]

theorem get_state_preserves_positions (cb : CircuitBreaker) (now : ℤ) :
    (cb.get_state now).2.positions = cb.positions := by
  unfold CircuitBreaker.get_state
  dsimp only
  split <;> split <;> rfl

theorem get_state_preserves_daily_metrics (cb : CircuitBreaker) (now : ℤ) :
    (cb.get_state now).2.daily_metrics = cb.daily_metrics := by
  unfold CircuitBreaker.get_state
  dsimp only
  split <;> split <;> rfl

theorem get_state_preserves_config (cb : CircuitBreaker) (now : ℤ) :
    (cb.get_state now).2.config = cb.config := by
  unfold CircuitBreaker.get_state
  dsimp only
  split <;> split <;> rfl

theorem can_trade_snd (cb : CircuitBreaker) (now : ℤ) :
    (cb.can_trade now).2 = (cb.get_state now).2 := rfl

/-! ### C1 — `validate_trade` checks in order, first violation wins -/

/-- Check (a) of the claim: the projected daily P&L
(`current_pnl − estimated_loss`) breaches `−max_daily_loss_usd`. -/
def dailyLossViolated (cb : CircuitBreaker) (estimated_loss_usd : ℚ) : Prop :=
  cb.daily_metrics.total_pnl_usd - estimated_loss_usd < -cb.config.max_daily_loss_usd

/-- Check (b): the estimated loss exceeds the per-trade cap. -/
def perTradeViolated (cb : CircuitBreaker) (estimated_loss_usd : ℚ) : Prop :=
  estimated_loss_usd > cb.config.max_loss_per_trade_usd

/-- Check (c): the market's position plus the trade size exceeds the
per-market cap. -/
def perMarketViolated (cb : CircuitBreaker) (market_id : String)
    (trade_size_usd : ℚ) : Prop :=
  cb.market_position market_id + trade_size_usd > cb.config.max_position_per_market

/-- Check (d): the total position across all markets plus the trade size
exceeds the total cap. -/
def totalViolated (cb : CircuitBreaker) (trade_size_usd : ℚ) : Prop :=
  cb.calculate_total_position + trade_size_usd > cb.config.max_total_position

instance (cb : CircuitBreaker) (est : ℚ) : Decidable (dailyLossViolated cb est) :=
  decidable_of_iff
    (cb.daily_metrics.total_pnl_usd - est < -cb.config.max_daily_loss_usd) Iff.rfl

instance (cb : CircuitBreaker) (est : ℚ) : Decidable (perTradeViolated cb est) :=
  decidable_of_iff (est > cb.config.max_loss_per_trade_usd) Iff.rfl

instance (cb : CircuitBreaker) (market_id : String) (sz : ℚ) :
    Decidable (perMarketViolated cb market_id sz) :=
  decidable_of_iff
    (cb.market_position market_id + sz > cb.config.max_position_per_market) Iff.rfl

instance (cb : CircuitBreaker) (sz : ℚ) : Decidable (totalViolated cb sz) :=
  decidable_of_iff
    (cb.calculate_total_position + sz > cb.config.max_total_position) Iff.rfl

/-- **C1.** For every call `validate_trade(market, size, estimated_loss)`:
if `can_trade()` is false the trade is rejected; otherwise checks (a) daily
loss (whose violation trips the breaker to OPEN), (b) per-trade cap, (c)
per-market cap and (d) total cap run in that order on the post-`can_trade`
state, the first violated check determines the result (the non-tripping
rejections leave the state exactly as `can_trade` left it), and if all pass
the result is `can_execute = true`. -/
theorem validate_trade_first_violation_wins (cb : CircuitBreaker)
    (market_id : String) (trade_size_usd estimated_loss_usd : ℚ) (now : ℤ) :
    ((cb.can_trade now).1 = false →
      (cb.validate_trade market_id trade_size_usd estimated_loss_usd now).1.can_execute
          = false ∧
      (cb.validate_trade market_id trade_size_usd estimated_loss_usd now).2
          = (cb.can_trade now).2) ∧
    ((cb.can_trade now).1 = true →
      (dailyLossViolated (cb.can_trade now).2 estimated_loss_usd →
        (cb.validate_trade market_id trade_size_usd estimated_loss_usd now).1.can_execute
            = false ∧
        (cb.validate_trade market_id trade_size_usd estimated_loss_usd now).2
            = (cb.can_trade now).2.trip now) ∧
      (¬ dailyLossViolated (cb.can_trade now).2 estimated_loss_usd →
        perTradeViolated (cb.can_trade now).2 estimated_loss_usd →
        (cb.validate_trade market_id trade_size_usd estimated_loss_usd now).1.can_execute
            = false ∧
        (cb.validate_trade market_id trade_size_usd estimated_loss_usd now).2
            = (cb.can_trade now).2) ∧
      (¬ dailyLossViolated (cb.can_trade now).2 estimated_loss_usd →
        ¬ perTradeViolated (cb.can_trade now).2 estimated_loss_usd →
        perMarketViolated (cb.can_trade now).2 market_id trade_size_usd →
        (cb.validate_trade market_id trade_size_usd estimated_loss_usd now).1.can_execute
            = false ∧
        (cb.validate_trade market_id trade_size_usd estimated_loss_usd now).2
            = (cb.can_trade now).2) ∧
      (¬ dailyLossViolated (cb.can_trade now).2 estimated_loss_usd →
        ¬ perTradeViolated (cb.can_trade now).2 estimated_loss_usd →
        ¬ perMarketViolated (cb.can_trade now).2 market_id trade_size_usd →
        totalViolated (cb.can_trade now).2 trade_size_usd →
        (cb.validate_trade market_id trade_size_usd estimated_loss_usd now).1.can_execute
            = false ∧
        (cb.validate_trade market_id trade_size_usd estimated_loss_usd now).2
            = (cb.can_trade now).2) ∧
      (¬ dailyLossViolated (cb.can_trade now).2 estimated_loss_usd →
        ¬ perTradeViolated (cb.can_trade now).2 estimated_loss_usd →
        ¬ perMarketViolated (cb.can_trade now).2 market_id trade_size_usd →
        ¬ totalViolated (cb.can_trade now).2 trade_size_usd →
        (cb.validate_trade market_id trade_size_usd estimated_loss_usd now).1.can_execute
            = true ∧
        (cb.validate_trade market_id trade_size_usd estimated_loss_usd now).2
            = (cb.can_trade now).2)) := by
  unfold dailyLossViolated perTradeViolated perMarketViolated totalViolated
  refine ⟨fun h => ?_, fun h => ⟨fun h1 => ?_, fun h1 h2 => ?_, fun h1 h2 h3 => ?_,
    fun h1 h2 h3 h4 => ?_, fun h1 h2 h3 h4 => ?_⟩⟩ <;>
    unfold CircuitBreaker.validate_trade <;> dsimp only
  · rw [if_pos h]; exact ⟨rfl, rfl⟩
  · rw [if_neg (by simp [h]), if_pos h1]
    exact ⟨rfl, rfl⟩
  · rw [if_neg (by simp [h]), if_neg h1,
      if_pos h2]
    exact ⟨rfl, rfl⟩
  · rw [if_neg (by simp [h]), if_neg h1,
      if_neg h2, if_pos h3]
    exact ⟨rfl, rfl⟩
  · rw [if_neg (by simp [h]), if_neg h1,
      if_neg h2, if_neg h3, if_pos h4]
    exact ⟨rfl, rfl⟩
  · rw [if_neg (by simp [h]), if_neg h1,
      if_neg h2, if_neg h3, if_neg h4]
    exact ⟨rfl, rfl⟩

/-- Witness for C1: with the default configuration, a fresh breaker, a $10
trade and a $1 estimated loss, every check passes and the trade is approved. -/
theorem validate_trade_first_violation_wins_witness :
    ((CircuitBreaker.init {} "2026-01-01" 0).can_trade 5).1 = true ∧
    (((CircuitBreaker.init {} "2026-01-01" 0).validate_trade "m" 10 1 5).1.can_execute
        = true ∧
      ((CircuitBreaker.init {} "2026-01-01" 0).validate_trade "m" 10 1 5).2
        = ((CircuitBreaker.init {} "2026-01-01" 0).can_trade 5).2) :=
  ⟨rfl,
    ((validate_trade_first_violation_wins (CircuitBreaker.init {} "2026-01-01" 0)
        "m" 10 1 5).2 rfl).2.2.2.2
      (by show ¬((0:ℚ) - 1 < -(500:ℚ)); norm_num)
      (by show ¬((1:ℚ) > (5:ℚ)); norm_num)
      (by show ¬((0:ℚ) + 10 > (50000:ℚ)); norm_num)
      (by show ¬((0:ℚ) + 10 > (100000:ℚ)); norm_num)⟩

/-! ### Transition-step lemmas for the breaker state machine -/

theorem trip_state (cb : CircuitBreaker) (now : ℤ) : (cb.trip now).state = .OPEN := rfl

theorem trip_trip_time (cb : CircuitBreaker) (now : ℤ) :
    (cb.trip now).trip_time = some now := rfl

theorem cooldown_elapsed_some (cb : CircuitBreaker) (now t : ℤ)
    (h : cb.trip_time = some t) :
    cb.cooldown_elapsed now
      = (decide (t ≠ 0) && decide (now - t > cb.config.error_cooldown_ms)) := by
  simp only [CircuitBreaker.cooldown_elapsed, h]

theorem can_reset_eq_true (cb : CircuitBreaker) (h1 : cb.error_count = 0)
    (h2 : cb.daily_metrics.consecutive_errors < cb.config.max_consecutive_errors)
    (h3 : cb.daily_metrics.total_pnl_usd > -cb.config.max_daily_loss_usd) :
    cb.can_reset = true := by
  unfold CircuitBreaker.can_reset
  simp only [Bool.and_eq_true, decide_eq_true_eq]
  exact ⟨⟨h1, h2⟩, h3⟩

theorem get_state_open_stays (cb : CircuitBreaker) (now : ℤ)
    (h1 : cb.state = .OPEN) (h2 : cb.cooldown_elapsed now = false) :
    cb.get_state now = (.OPEN, cb) := by
  unfold CircuitBreaker.get_state
  dsimp only
  split
  next hc => rw [h1] at hc; exact absurd hc.1 (by decide)
  next =>
    split
    next hc2 => rw [h2] at hc2; exact absurd hc2.2 (by decide)
    next => rw [h1]

theorem get_state_open_to_halfopen (cb : CircuitBreaker) (now : ℤ)
    (h1 : cb.state = .OPEN) (h2 : cb.cooldown_elapsed now = true) :
    cb.get_state now
      = (.HALF_OPEN,
        { cb with state := .HALF_OPEN, error_count := max 1 (cb.error_count / 2) }) := by
  unfold CircuitBreaker.get_state
  dsimp only
  split
  next hc => rw [h1] at hc; exact absurd hc.1 (by decide)
  next =>
    split
    next => rfl
    next hc2 => exact absurd ⟨h1, h2⟩ hc2

theorem get_state_halfopen_to_closed (cb : CircuitBreaker) (now : ℤ)
    (h1 : cb.state = .HALF_OPEN) (h2 : cb.can_reset = true) :
    cb.get_state now
      = (.CLOSED, { cb with state := .CLOSED, error_count := 0, trip_time := none }) := by
  unfold CircuitBreaker.get_state
  dsimp only
  split
  next =>
    split
    next hc2 =>
      exact absurd (show CircuitBreakerState.CLOSED = .OPEN from hc2.1) (by decide)
    next => rfl
  next hc => exact absurd ⟨h1, h2⟩ hc

/-! ### C2 — trip on daily-loss breach, HalfOpen after cooldown, Closed on recovery -/

/-- A freshly initialized breaker whose daily P&L has been set to `p` (the
claim's "current daily P&L" starting point; all counters are zero). -/
def breakerWithPnl (cfg : CircuitBreakerConfig) (today : String) (p : ℚ) :
    CircuitBreaker :=
  { CircuitBreaker.init cfg today 0 with
    daily_metrics := { initialize_daily_metrics today with total_pnl_usd := p } }

/-- **C2.** Starting Closed with no recorded errors and daily P&L `p`:
a trade whose estimated loss pushes the projection below `−max_daily_loss_usd`
is rejected and trips the breaker to OPEN with `can_trade() = false`; a
`get_state()` more than `error_cooldown_ms` after the trip returns HALF_OPEN
and applies `max 1 (error_count / 2)` to the error count (halved rather than
zeroed — from zero recorded errors this floor leaves it at 1); once the error
count is back at 0 (here via a recorded success) with daily P&L still above
`−max_daily_loss_usd`, the next `get_state()` call returns CLOSED. -/
theorem breaker_trip_cooldown_roundtrip (cfg : CircuitBreakerConfig)
    (today : String) (p est sz : ℚ) (t1 t2 t3 : ℤ)
    (hcool : 0 ≤ cfg.error_cooldown_ms) (ht1 : t1 ≠ 0)
    (hmaxc : 0 < cfg.max_consecutive_errors)
    (hp : p > -cfg.max_daily_loss_usd)
    (hviol : p - est < -cfg.max_daily_loss_usd)
    (ht2 : t2 - t1 > cfg.error_cooldown_ms) :
    ((breakerWithPnl cfg today p).validate_trade "m" sz est t1).1.can_execute
        = false ∧
    ((breakerWithPnl cfg today p).validate_trade "m" sz est t1).2.state = .OPEN ∧
    ((((breakerWithPnl cfg today p).validate_trade "m" sz est t1).2.can_trade t1).1
        = false) ∧
    ((((breakerWithPnl cfg today p).validate_trade "m" sz est t1).2.get_state t2).1
        = .HALF_OPEN) ∧
    ((((breakerWithPnl cfg today p).validate_trade "m" sz est t1).2.get_state
        t2).2.error_count = 1) ∧
    (((((breakerWithPnl cfg today p).validate_trade "m" sz est t1).2.get_state
        t2).2.record_success { success := true }).error_count = 0) ∧
    ((((((breakerWithPnl cfg today p).validate_trade "m" sz est t1).2.get_state
        t2).2.record_success { success := true }).get_state t3).1 = .CLOSED) := by
  have hgs0 : (breakerWithPnl cfg today p).get_state t1
      = (.CLOSED, breakerWithPnl cfg today p) :=
    get_state_of_closed _ _ rfl
  have hct0 : (breakerWithPnl cfg today p).can_trade t1
      = (true, breakerWithPnl cfg today p) := by
    unfold CircuitBreaker.can_trade
    rw [hgs0]
    rfl
  have hv : (breakerWithPnl cfg today p).validate_trade "m" sz est t1
      = (⟨false, some "Daily loss limit would be exceeded"⟩,
        (breakerWithPnl cfg today p).trip t1) := by
    unfold CircuitBreaker.validate_trade
    dsimp only
    rw [hct0]
    dsimp only
    rw [if_neg (by simp),
      if_pos (show (breakerWithPnl cfg today p).daily_metrics.total_pnl_usd - est
        < -(breakerWithPnl cfg today p).config.max_daily_loss_usd from hviol)]
  have hce1 : ((breakerWithPnl cfg today p).trip t1).cooldown_elapsed t1 = false := by
    rw [cooldown_elapsed_some _ t1 t1 (trip_trip_time _ t1)]
    simp only [Bool.and_eq_false_iff, decide_eq_false_iff_not, Decidable.not_not]
    right
    show ¬(t1 - t1 > cfg.error_cooldown_ms)
    omega
  have hgsT1 : ((breakerWithPnl cfg today p).trip t1).get_state t1
      = (.OPEN, (breakerWithPnl cfg today p).trip t1) :=
    get_state_open_stays _ t1 (trip_state _ t1) hce1
  have hctT1 : (((breakerWithPnl cfg today p).trip t1).can_trade t1)
      = (false, (breakerWithPnl cfg today p).trip t1) := by
    unfold CircuitBreaker.can_trade
    rw [hgsT1]
    rfl
  have hce2 : ((breakerWithPnl cfg today p).trip t1).cooldown_elapsed t2 = true := by
    rw [cooldown_elapsed_some _ t2 t1 (trip_trip_time _ t1)]
    simp only [Bool.and_eq_true, decide_eq_true_eq]
    exact ⟨ht1, show t2 - t1 > cfg.error_cooldown_ms from ht2⟩
  have hgsT2 : ((breakerWithPnl cfg today p).trip t1).get_state t2
      = (.HALF_OPEN,
        { (breakerWithPnl cfg today p).trip t1 with
          state := .HALF_OPEN,
          error_count :=
            max 1 (((breakerWithPnl cfg today p).trip t1).error_count / 2) }) :=
    get_state_open_to_halfopen _ t2 (trip_state _ t1) hce2
  have hcr3 :
      ({ (breakerWithPnl cfg today p).trip t1 with
        state := CircuitBreakerState.HALF_OPEN,
        error_count :=
          max 1 (((breakerWithPnl cfg today p).trip t1).error_count / 2)
        }.record_success { success := true }).can_reset = true :=
    can_reset_eq_true _ rfl (show 0 < cfg.max_consecutive_errors from hmaxc)
      (show p > -cfg.max_daily_loss_usd from hp)
  have hgs3 :
      ({ (breakerWithPnl cfg today p).trip t1 with
        state := CircuitBreakerState.HALF_OPEN,
        error_count :=
          max 1 (((breakerWithPnl cfg today p).trip t1).error_count / 2)
        }.record_success { success := true }).get_state t3
      = (.CLOSED, _) :=
    get_state_halfopen_to_closed _ t3 rfl hcr3
  refine ⟨by rw [hv], by rw [hv]; simp [CircuitBreaker.trip],
    by rw [hv]; dsimp only; rw [hctT1],
    by rw [hv]; dsimp only; rw [hgsT2],
    by rw [hv]; dsimp only; rw [hgsT2]
       simp [CircuitBreaker.trip, breakerWithPnl, CircuitBreaker.init],
    by rw [hv]; dsimp only; rw [hgsT2]
       simp [CircuitBreaker.record_success], ?_⟩
  rw [hv]
  dsimp only
  rw [hgsT2]
  dsimp only
  rw [hgs3]

/-- Witness for C2: the default configuration, zero starting P&L, a $600
estimated loss (projection −600 < −500), trip at `t = 1000`, cooldown check at
`t = 70000` (69000 ms > 60000 ms), recovery read at `t = 70001`. -/
theorem breaker_trip_cooldown_roundtrip_witness :
    ((0:ℚ) > -(500:ℚ) ∧ (0:ℚ) - 600 < -(500:ℚ) ∧ (70000:ℤ) - 1000 > 60000) ∧
    (((breakerWithPnl {} "2026-01-01" 0).validate_trade "m" 10 600 1000).1.can_execute
        = false ∧
      ((breakerWithPnl {} "2026-01-01" 0).validate_trade "m" 10 600 1000).2.state
        = .OPEN ∧
      ((((breakerWithPnl {} "2026-01-01" 0).validate_trade "m" 10 600 1000).2.can_trade
          1000).1 = false) ∧
      ((((breakerWithPnl {} "2026-01-01" 0).validate_trade "m" 10 600 1000).2.get_state
          70000).1 = .HALF_OPEN) ∧
      ((((breakerWithPnl {} "2026-01-01" 0).validate_trade "m" 10 600
          1000).2.get_state 70000).2.error_count = 1) ∧
      (((((breakerWithPnl {} "2026-01-01" 0).validate_trade "m" 10 600
          1000).2.get_state 70000).2.record_success { success := true }).error_count
        = 0) ∧
      ((((((breakerWithPnl {} "2026-01-01" 0).validate_trade "m" 10 600
          1000).2.get_state 70000).2.record_success { success := true }).get_state
          70001).1 = .CLOSED)) :=
  ⟨⟨by norm_num, by norm_num, by decide⟩,
    breaker_trip_cooldown_roundtrip {} "2026-01-01" 0 600 10 1000 70000 70001
      (by decide) (by decide) (by decide) (by norm_num) (by norm_num) (by decide)⟩

/-! ### Frame lemmas for the risk-gate operations -/

theorem trip_positions (cb : CircuitBreaker) (now : ℤ) :
    (cb.trip now).positions = cb.positions := rfl

theorem trip_daily_metrics (cb : CircuitBreaker) (now : ℤ) :
    (cb.trip now).daily_metrics = cb.daily_metrics := rfl

theorem record_success_positions (cb : CircuitBreaker) (r : TradeResult) :
    (cb.record_success r).positions = cb.positions := rfl

theorem handle_error_positions (cb : CircuitBreaker) (now : ℤ) :
    (cb.handle_error now).positions = cb.positions := by
  unfold CircuitBreaker.handle_error
  dsimp only
  split_ifs <;> rfl

theorem manual_reset_positions (cb : CircuitBreaker) :
    cb.manual_reset.positions = cb.positions := rfl

theorem manual_trip_positions (cb : CircuitBreaker) (now : ℤ) :
    (cb.manual_trip now).positions = cb.positions := rfl

/-- `validate_trade` returns either the post-`can_trade` state unchanged or
that state tripped (the daily-loss branch); nothing else. -/
theorem validate_trade_snd_cases (cb : CircuitBreaker) (mkt : String)
    (sz est : ℚ) (now : ℤ) :
    (cb.validate_trade mkt sz est now).2 = (cb.can_trade now).2 ∨
    (cb.validate_trade mkt sz est now).2 = ((cb.can_trade now).2).trip now := by
  unfold CircuitBreaker.validate_trade
  dsimp only
  split_ifs <;> simp

theorem validate_trade_positions (cb : CircuitBreaker) (mkt : String)
    (sz est : ℚ) (now : ℤ) :
    (cb.validate_trade mkt sz est now).2.positions = cb.positions := by
  rcases validate_trade_snd_cases cb mkt sz est now with h | h <;>
    rw [h, can_trade_snd] <;>
    first
      | exact get_state_preserves_positions cb now
      | rw [trip_positions]; exact get_state_preserves_positions cb now

theorem validate_trade_daily_metrics (cb : CircuitBreaker) (mkt : String)
    (sz est : ℚ) (now : ℤ) :
    (cb.validate_trade mkt sz est now).2.daily_metrics = cb.daily_metrics := by
  rcases validate_trade_snd_cases cb mkt sz est now with h | h <;>
    rw [h, can_trade_snd] <;>
    first
      | exact get_state_preserves_daily_metrics cb now
      | rw [trip_daily_metrics]; exact get_state_preserves_daily_metrics cb now

/-! ### C10 — what `validate_trade` leaves unchanged -/

/-- A breaker sitting OPEN past its cooldown: the next `can_trade()` read
inside `validate_trade` lazily moves it to HALF_OPEN. -/
def c10breaker : CircuitBreaker :=
  { config := {}, state := .OPEN, positions := [],
    daily_metrics := initialize_daily_metrics "2026-01-01", trip_time := some 1,
    error_count := 0, last_reset_time := 0 }

/-- **C10, counterexample.** A per-trade-cap rejection (not the daily-loss
check) that nevertheless changes the breaker state: the lazy OPEN→HALF_OPEN
transition inside `can_trade()` fires first, so after the call the state field
and error counter differ from before, contradicting "the entire breaker state
… is the same after the call as before it". -/
theorem validate_trade_pertrade_reject_mutates_state :
    (c10breaker.validate_trade "m" 1 10 100000).1.can_execute = false ∧
    (c10breaker.validate_trade "m" 1 10 100000).1.reason
      = some "Per-trade loss limit exceeded" ∧
    (c10breaker.validate_trade "m" 1 10 100000).2.state ≠ c10breaker.state ∧
    (c10breaker.validate_trade "m" 1 10 100000).2.error_count
      ≠ c10breaker.error_count := by
  have hgs : c10breaker.get_state 100000
      = (.HALF_OPEN,
        { c10breaker with
          state := .HALF_OPEN,
          error_count := max 1 (c10breaker.error_count / 2) }) :=
    get_state_open_to_halfopen _ _ rfl (by decide)
  have hct : c10breaker.can_trade 100000
      = (true,
        { c10breaker with
          state := .HALF_OPEN,
          error_count := max 1 (c10breaker.error_count / 2) }) := by
    unfold CircuitBreaker.can_trade
    rw [hgs]
    rfl
  have hv : c10breaker.validate_trade "m" 1 10 100000
      = (⟨false, some "Per-trade loss limit exceeded"⟩,
        { c10breaker with
          state := .HALF_OPEN,
          error_count := max 1 (c10breaker.error_count / 2) }) := by
    unfold CircuitBreaker.validate_trade
    dsimp only
    rw [hct]
    dsimp only
    rw [if_neg (by simp), if_neg (by show ¬((0:ℚ) - 10 < -(500:ℚ)); norm_num),
      if_pos (by show (10:ℚ) > (5:ℚ); norm_num)]
  refine ⟨by rw [hv], by rw [hv], by rw [hv]; decide, by rw [hv]; decide⟩

/-- **C10, amended.** `validate_trade` always leaves the positions map and the
daily metrics unchanged; and whenever it does not trip on the daily-loss check
— in particular on a circuit-open, per-trade, per-market or total-cap
rejection — the post-call breaker state is exactly the state left behind by
`can_trade()`'s lazy `get_state()` transitions, with no further change.  (The
original claim asked for the pre-call state itself, which fails when a lazy
transition fires during the call: `validate_trade_pertrade_reject_mutates_state`.) -/
theorem validate_trade_frame (cb : CircuitBreaker) (mkt : String)
    (sz est : ℚ) (now : ℤ) :
    (cb.validate_trade mkt sz est now).2.positions = cb.positions ∧
    (cb.validate_trade mkt sz est now).2.daily_metrics = cb.daily_metrics ∧
    ((cb.can_trade now).1 = false →
      (cb.validate_trade mkt sz est now).2 = (cb.can_trade now).2) ∧
    (¬ dailyLossViolated (cb.can_trade now).2 est →
      (cb.validate_trade mkt sz est now).2 = (cb.can_trade now).2) := by
  refine ⟨validate_trade_positions cb mkt sz est now,
    validate_trade_daily_metrics cb mkt sz est now, fun h => ?_, fun h => ?_⟩
  · unfold CircuitBreaker.validate_trade
    dsimp only
    rw [if_pos h]
  · unfold CircuitBreaker.validate_trade
    dsimp only
    split_ifs <;> first | rfl | exact absurd (by assumption) h

/-- Witness for C10 (amended): a fresh breaker, a $1 estimated loss — no
daily-loss trip, so the call leaves the breaker exactly as `can_trade` left
it, and positions/daily metrics are untouched. -/
theorem validate_trade_frame_witness :
    ((CircuitBreaker.init {} "2026-01-01" 0).validate_trade "m" 10 1 5).2.positions
      = (CircuitBreaker.init {} "2026-01-01" 0).positions ∧
    ((CircuitBreaker.init {} "2026-01-01" 0).validate_trade "m" 10 1 5).2
      = ((CircuitBreaker.init {} "2026-01-01" 0).can_trade 5).2 :=
  ⟨(validate_trade_frame (CircuitBreaker.init {} "2026-01-01" 0) "m" 10 1 5).1,
    (validate_trade_frame (CircuitBreaker.init {} "2026-01-01" 0) "m" 10 1 5).2.2.2
      (by show ¬((0:ℚ) - 1 < -(500:ℚ)); norm_num)⟩

/-! ### C9 — Position lifecycle in the risk gate -/

theorem lookupPos_append_some (l t : List (String × Position)) (k : String)
    (p : Position) (h : lookupPos l k = some p) : lookupPos (l ++ t) k = some p := by
  induction l with
  | nil => simp [lookupPos] at h
  | cons hd tl ih =>
    obtain ⟨k0, v⟩ := hd
    simp only [List.cons_append, lookupPos] at h ⊢
    split_ifs at h ⊢ with hk
    · exact h
    · exact ih h

theorem lookupPos_append_of_none (l : List (String × Position)) (k : String)
    (p : Position) (h : lookupPos l k = none) :
    lookupPos (l ++ [(k, p)]) k = some p := by
  induction l with
  | nil => simp [lookupPos]
  | cons hd tl ih =>
    obtain ⟨k0, v⟩ := hd
    simp only [List.cons_append, lookupPos] at h ⊢
    split_ifs at h ⊢ with hk <;>
      first
        | exact ih h
        | exact (Option.some_ne_none _ h).elim

/-- What `update_position` does to the positions map on a successful result
carrying a position: append on a missing key, keep the map otherwise. -/
theorem update_position_success_positions (cb : CircuitBreaker) (mkt : String)
    (now : ℤ) (r : TradeResult) (p : Position) (hs : r.success = true)
    (hp : r.position = some p) :
    (cb.update_position mkt r now).positions
      = (match lookupPos cb.positions mkt with
        | none => cb.positions ++ [(mkt, p)]
        | some _ => cb.positions) := by
  unfold CircuitBreaker.update_position
  rw [if_neg (by simp [hs]), hp]
  dsimp only
  rcases hlk : lookupPos cb.positions mkt with _ | q <;> rfl

/-- The positions map only ever grows under `update_position`. -/
theorem update_position_extends (cb : CircuitBreaker) (mkt : String)
    (r : TradeResult) (now : ℤ) :
    ∃ t, (cb.update_position mkt r now).positions = cb.positions ++ t := by
  unfold CircuitBreaker.update_position
  split_ifs with h
  · exact ⟨[], by rw [handle_error_positions, List.append_nil]⟩
  · dsimp only
    rcases hrp : r.position with _ | p
    · exact ⟨[], by simp⟩
    · rcases hlk : lookupPos cb.positions mkt with _ | q
      · exact ⟨[(mkt, p)], rfl⟩
      · exact ⟨[], by simp⟩

/-- A concrete stored position for the C9 counterexample. -/
def p1cex : Position :=
  { id := "pos-1", market_id := "m", question := "q", platform := .POLYMARKET,
    outcome := "yes", quantity := 5, avg_entry_price := 50, current_price := 50,
    cost_basis_usd := 5, current_value_usd := 5, unrealized_pnl_usd := 0,
    unrealized_pnl_pct := 0, exposure_usd := 5, max_loss_usd := 5,
    max_gain_usd := 5, opened_at := 0, last_updated := 0 }

/-- A different position reported by a later fill in the same market. -/
def p2cex : Position := { p1cex with id := "pos-2", quantity := 7 }

/-- A breaker that already holds `p1cex` for market `"m"`. -/
def c9breaker : CircuitBreaker :=
  { config := {}, state := .CLOSED, positions := [("m", p1cex)],
    daily_metrics := initialize_daily_metrics "2026-01-01", trip_time := none,
    error_count := 0, last_reset_time := 0 }

/-- **C9, counterexample.** A market that already has a stored position and a
second successful fill reporting a different position: `update_position`
leaves the stored position exactly as it was (the guard
`not self.positions.get(market_id)` blocks the write), so the Position is
*not* updated on a subsequent successful fill. -/
theorem update_position_keeps_first_counterexample :
    (c9breaker.update_position "m" { success := true, position := some p2cex }
      0).positions = [("m", p1cex)] ∧
    lookupPos (c9breaker.update_position "m"
      { success := true, position := some p2cex } 0).positions "m" = some p1cex ∧
    p1cex ≠ p2cex := by
  refine ⟨?_, ?_, by decide⟩ <;>
    rw [update_position_success_positions c9breaker "m" 0 _ p2cex rfl rfl] <;> rfl

/-- **C9, amended.** A Position is created on the first successful trade that
reports one for a market; on subsequent successful fills in that market the
stored position (and the whole map) is left unchanged — it is *not* updated;
and no Risk Gate operation (`update_position`, `get_state`, `validate_trade`,
`record_success`, `handle_error`, `manual_reset`, `manual_trip`) ever removes
a stored position. -/
theorem position_lifecycle (cb : CircuitBreaker) (mkt mkt' : String)
    (r : TradeResult) (p q : Position) (sz est : ℚ) (now : ℤ) :
    (r.success = true → r.position = some p → lookupPos cb.positions mkt = none →
      lookupPos (cb.update_position mkt r now).positions mkt = some p) ∧
    (r.success = true → r.position = some p → lookupPos cb.positions mkt = some q →
      (cb.update_position mkt r now).positions = cb.positions) ∧
    (lookupPos cb.positions mkt' = some q →
      lookupPos (cb.update_position mkt r now).positions mkt' = some q) ∧
    ((cb.get_state now).2.positions = cb.positions) ∧
    ((cb.validate_trade mkt sz est now).2.positions = cb.positions) ∧
    ((cb.record_success r).positions = cb.positions) ∧
    ((cb.handle_error now).positions = cb.positions) ∧
    (cb.manual_reset.positions = cb.positions) ∧
    ((cb.manual_trip now).positions = cb.positions) := by
  refine ⟨fun hs hp h0 => ?_, fun hs hp hq => ?_, fun hq => ?_,
    get_state_preserves_positions cb now, validate_trade_positions cb mkt sz est now,
    record_success_positions cb r, handle_error_positions cb now,
    manual_reset_positions cb, manual_trip_positions cb now⟩
  · rw [update_position_success_positions cb mkt now r p hs hp, h0]
    exact lookupPos_append_of_none _ _ _ h0
  · rw [update_position_success_positions cb mkt now r p hs hp, hq]
  · obtain ⟨t, ht⟩ := update_position_extends cb mkt r now
    rw [ht]
    exact lookupPos_append_some _ _ _ _ hq

/-- Witness for C9 (amended): a fresh breaker receives its first successful
trade for market `"m"` carrying position `p1cex`; the position is created. -/
theorem position_lifecycle_witness :
    lookupPos (CircuitBreaker.init {} "2026-01-01" 0).positions "m" = none ∧
    lookupPos ((CircuitBreaker.init {} "2026-01-01" 0).update_position "m"
      { success := true, position := some p1cex } 0).positions "m" = some p1cex :=
  ⟨rfl,
    (position_lifecycle (CircuitBreaker.init {} "2026-01-01" 0) "m" "m"
      { success := true, position := some p1cex } p1cex p1cex 0 0 0).1 rfl rfl rfl⟩

/-! ### C6 — combined two-leg sizing -/

/-- **C6.** For every pair of order books and target size, the combined result
is the minimum of the two legs' optimal sizes, the total slippage is the sum of
the legs' slippages, and `can_execute` holds iff the combined size reaches
`min_liquidity` and the total slippage fits twice the per-leg allowance. -/
theorem arbitrage_vwap_combined (yes_orderbook no_orderbook : L2OrderBook)
    (target : ℚ) (config : OrderbookConfig) :
    (calculate_arbitrage_vwap yes_orderbook no_orderbook target config).combined_optimal_size
      = min (calculate_buy_vwap yes_orderbook target config).optimal_size
          (calculate_buy_vwap no_orderbook target config).optimal_size ∧
    (calculate_arbitrage_vwap yes_orderbook no_orderbook target config).total_slippage_cents
      = (calculate_buy_vwap yes_orderbook target config).slippage_cents
        + (calculate_buy_vwap no_orderbook target config).slippage_cents ∧
    ((calculate_arbitrage_vwap yes_orderbook no_orderbook target config).can_execute
        = true ↔
      (calculate_arbitrage_vwap yes_orderbook no_orderbook target
          config).combined_optimal_size ≥ config.min_liquidity ∧
      (calculate_arbitrage_vwap yes_orderbook no_orderbook target
          config).total_slippage_cents ≤ (config.max_slippage_cents : ℚ) * 2) := by
  unfold calculate_arbitrage_vwap
  dsimp only
  exact ⟨rfl, rfl, by simp⟩

/-! ### C8 — degenerate books give zero-size, zero-cost results -/

theorem calculate_buy_vwap_degenerate (ob : L2OrderBook) (t : ℚ)
    (cfg : OrderbookConfig)
    (h : ob.asks = [] ∨ (ob.asks.head?.map OrderBookLevel.price) = some 0) :
    calculate_buy_vwap ob t cfg = zeroVWAP := by
  rcases hA : ob.asks with _ | ⟨top, rest⟩
  · simp only [calculate_buy_vwap, hA]
  · rcases h with h0 | h0
    · rw [hA] at h0; exact absurd h0 (by simp)
    · rw [hA] at h0
      have h0p : top.price = 0 := by simpa using h0
      simp only [calculate_buy_vwap, hA]
      rw [if_pos h0p]

theorem calculate_sell_vwap_degenerate (ob : L2OrderBook) (t : ℚ)
    (cfg : OrderbookConfig)
    (h : ob.bids = [] ∨ (ob.bids.head?.map OrderBookLevel.price) = some 0) :
    calculate_sell_vwap ob t cfg = zeroVWAP := by
  rcases hA : ob.bids with _ | ⟨top, rest⟩
  · simp only [calculate_sell_vwap, hA]
  · rcases h with h0 | h0
    · rw [hA] at h0; exact absurd h0 (by simp)
    · rw [hA] at h0
      have h0p : top.price = 0 := by simpa using h0
      simp only [calculate_sell_vwap, hA]
      rw [if_pos h0p]

/-- **C8.** For every target size and configuration, a buy-side calculation on
a book with an empty ask list or a zero best ask, and a sell-side calculation
on a book with an empty bid list or a zero best bid, return zero optimal size
and zero execution cost; the Lean functions are total, so no exception can be
raised. -/
theorem vwap_degenerate_books_zero (ob ob' : L2OrderBook) (t t' : ℚ)
    (cfg cfg' : OrderbookConfig)
    (h : ob.asks = [] ∨ (ob.asks.head?.map OrderBookLevel.price) = some 0)
    (h' : ob'.bids = [] ∨ (ob'.bids.head?.map OrderBookLevel.price) = some 0) :
    ((calculate_buy_vwap ob t cfg).optimal_size = 0 ∧
      (calculate_buy_vwap ob t cfg).execution_cost_usd = 0) ∧
    ((calculate_sell_vwap ob' t' cfg').optimal_size = 0 ∧
      (calculate_sell_vwap ob' t' cfg').execution_cost_usd = 0) := by
  rw [calculate_buy_vwap_degenerate ob t cfg h,
    calculate_sell_vwap_degenerate ob' t' cfg' h']
  exact ⟨⟨rfl, rfl⟩, ⟨rfl, rfl⟩⟩

/-- Witness for C8: an empty-ask book on the buy side, a zero-best-bid book on
the sell side. -/
theorem vwap_degenerate_books_zero_witness :
    ((calculate_buy_vwap ⟨"m", "tok", "yes", [], [], 0⟩ 100 {}).optimal_size = 0 ∧
      (calculate_buy_vwap ⟨"m", "tok", "yes", [], [], 0⟩ 100 {}).execution_cost_usd
        = 0) ∧
    ((calculate_sell_vwap ⟨"m", "tok", "yes", [⟨0, 50⟩], [], 0⟩ 100 {}).optimal_size
        = 0 ∧
      (calculate_sell_vwap ⟨"m", "tok", "yes", [⟨0, 50⟩], [], 0⟩ 100
          {}).execution_cost_usd = 0) :=
  vwap_degenerate_books_zero ⟨"m", "tok", "yes", [], [], 0⟩
    ⟨"m", "tok", "yes", [⟨0, 50⟩], [], 0⟩ 100 100 {} {}
    (Or.inl rfl) (Or.inr rfl)

/-! ### C5 — optimal size is `min (depth limit) target` -/

/-- `calculate_buy_vwap`'s optimal size is the target-independent depth limit
capped at the target (or 0 when the book is degenerate / nothing is within
tolerance). -/
theorem buy_optimal_eq_depthLimit (ob : L2OrderBook) (t : ℚ)
    (cfg : OrderbookConfig) :
    (calculate_buy_vwap ob t cfg).optimal_size
      = (match buyDepthLimit ob cfg with
        | none => 0
        | some C => min C t) := by
  unfold calculate_buy_vwap buyDepthLimit
  rcases hA : ob.asks with _ | ⟨top, rest⟩
  · rfl
  · dsimp only
    split_ifs with h0
    · rfl
    · split <;> rfl

/-- Bid-side analogue of `buy_optimal_eq_depthLimit`. -/
theorem sell_optimal_eq_depthLimit (ob : L2OrderBook) (t : ℚ)
    (cfg : OrderbookConfig) :
    (calculate_sell_vwap ob t cfg).optimal_size
      = (match sellDepthLimit ob cfg with
        | none => 0
        | some C => min C t) := by
  unfold calculate_sell_vwap sellDepthLimit
  rcases hA : ob.bids with _ | ⟨top, rest⟩
  · rfl
  · dsimp only
    split_ifs with h0
    · rfl
    · split <;> rfl

/-- **C5.** For a fixed book and configuration, the buy- and sell-side optimal
sizes never exceed the (non-negative) target, are non-decreasing in the
target, and once the target is at least the deepest in-tolerance cumulative
size (after the liquidity factor) — `buyDepthLimit` / `sellDepthLimit`, the
cumulative size at the deepest prefix whose slippage is within the
max-slippage bound — the optimal size equals that limit exactly. -/
theorem vwap_optimal_size_monotone (ob : L2OrderBook) (cfg : OrderbookConfig)
    (t1 t2 : ℚ) (h0 : 0 ≤ t1) (h12 : t1 ≤ t2) :
    (calculate_buy_vwap ob t1 cfg).optimal_size ≤ t1 ∧
    (calculate_buy_vwap ob t1 cfg).optimal_size
      ≤ (calculate_buy_vwap ob t2 cfg).optimal_size ∧
    (∀ C, buyDepthLimit ob cfg = some C → C ≤ t1 →
      (calculate_buy_vwap ob t1 cfg).optimal_size = C) ∧
    (calculate_sell_vwap ob t1 cfg).optimal_size ≤ t1 ∧
    (calculate_sell_vwap ob t1 cfg).optimal_size
      ≤ (calculate_sell_vwap ob t2 cfg).optimal_size ∧
    (∀ C, sellDepthLimit ob cfg = some C → C ≤ t1 →
      (calculate_sell_vwap ob t1 cfg).optimal_size = C) := by
  rw [buy_optimal_eq_depthLimit ob t1 cfg, buy_optimal_eq_depthLimit ob t2 cfg,
    sell_optimal_eq_depthLimit ob t1 cfg, sell_optimal_eq_depthLimit ob t2 cfg]
  constructor
  · rcases buyDepthLimit ob cfg with _ | C
    · exact h0
    · exact min_le_right C t1
  constructor
  · rcases buyDepthLimit ob cfg with _ | C
    · exact le_refl 0
    · exact min_le_min (le_refl C) h12
  constructor
  · intro C hC hCt
    rw [hC]
    exact min_eq_left hCt
  constructor
  · rcases sellDepthLimit ob cfg with _ | C
    · exact h0
    · exact min_le_right C t1
  constructor
  · rcases sellDepthLimit ob cfg with _ | C
    · exact le_refl 0
    · exact min_le_min (le_refl C) h12
  · intro C hC hCt
    rw [hC]
    exact min_eq_left hCt

/-- Witness for C5 at a concrete one-level book and the default configuration,
with targets 1 and 2. -/
theorem vwap_optimal_size_monotone_witness :
    ((0:ℚ) ≤ 1 ∧ (1:ℚ) ≤ 2) ∧
    ((calculate_buy_vwap ⟨"m", "tok", "yes", [⟨49, 80⟩], [⟨50, 100⟩], 0⟩ 1
        {}).optimal_size ≤ 1 ∧
      (calculate_buy_vwap ⟨"m", "tok", "yes", [⟨49, 80⟩], [⟨50, 100⟩], 0⟩ 1
          {}).optimal_size
        ≤ (calculate_buy_vwap ⟨"m", "tok", "yes", [⟨49, 80⟩], [⟨50, 100⟩], 0⟩ 2
          {}).optimal_size ∧
      (∀ C, buyDepthLimit ⟨"m", "tok", "yes", [⟨49, 80⟩], [⟨50, 100⟩], 0⟩ {}
          = some C → C ≤ 1 →
        (calculate_buy_vwap ⟨"m", "tok", "yes", [⟨49, 80⟩], [⟨50, 100⟩], 0⟩ 1
            {}).optimal_size = C) ∧
      (calculate_sell_vwap ⟨"m", "tok", "yes", [⟨49, 80⟩], [⟨50, 100⟩], 0⟩ 1
          {}).optimal_size ≤ 1 ∧
      (calculate_sell_vwap ⟨"m", "tok", "yes", [⟨49, 80⟩], [⟨50, 100⟩], 0⟩ 1
          {}).optimal_size
        ≤ (calculate_sell_vwap ⟨"m", "tok", "yes", [⟨49, 80⟩], [⟨50, 100⟩], 0⟩ 2
          {}).optimal_size ∧
      (∀ C, sellDepthLimit ⟨"m", "tok", "yes", [⟨49, 80⟩], [⟨50, 100⟩], 0⟩ {}
          = some C → C ≤ 1 →
        (calculate_sell_vwap ⟨"m", "tok", "yes", [⟨49, 80⟩], [⟨50, 100⟩], 0⟩ 1
            {}).optimal_size = C)) :=
  ⟨⟨by norm_num, by norm_num⟩,
    vwap_optimal_size_monotone ⟨"m", "tok", "yes", [⟨49, 80⟩], [⟨50, 100⟩], 0⟩ {}
      1 2 (by norm_num) (by norm_num)⟩

/-! ### C4 — single-market detector boundary -/

/-- **C4.** The single-market detector emits an opportunity iff
`yes + no + fees < 100` strictly, with profit `100 − total` cents
(`net_profit_usd` divides by 100); in particular 40¢/55¢/3¢ gives an
opportunity with `net_profit_usd = 0.02`, and 50¢/47¢/3¢ (total exactly 100)
gives none. -/
theorem single_market_detector_boundary (market : SingleMarket)
    (fees_cents now : ℤ) :
    ((detect_single_market_arbitrage market fees_cents now).isSome = true ↔
      market.yes_price + market.no_price + (fees_cents : ℚ) < 100) ∧
    (∀ opp, detect_single_market_arbitrage market fees_cents now = some opp →
      opp.net_profit_pct
        = 100 - (market.yes_price + market.no_price + (fees_cents : ℚ)) ∧
      opp.net_profit_usd
        = (100 - (market.yes_price + market.no_price + (fees_cents : ℚ))) / 100) ∧
    (∀ opp, detect_single_market_arbitrage ⟨"c", "q", 40, 55, 1000⟩ 3 now
        = some opp → opp.net_profit_usd = 2/100) ∧
    ((detect_single_market_arbitrage ⟨"c", "q", 40, 55, 1000⟩ 3 now).isSome
      = true) ∧
    (detect_single_market_arbitrage ⟨"c", "q", 50, 47, 1000⟩ 3 now = none) := by
  refine ⟨?_, ?_, ?_, ?_, ?_⟩
  · unfold detect_single_market_arbitrage
    dsimp only
    split_ifs with h
    · simp only [Option.isSome_none, Bool.false_eq_true, false_iff, not_lt]
      exact h
    · simp only [Option.isSome_some, true_iff]
      exact lt_of_not_le h
  · intro opp hopp
    unfold detect_single_market_arbitrage at hopp
    dsimp only at hopp
    split_ifs at hopp with h
    all_goals first
      | exact Option.noConfusion hopp
      | (obtain rfl := Option.some.inj hopp; exact ⟨rfl, rfl⟩)
  · intro opp hopp
    unfold detect_single_market_arbitrage at hopp
    dsimp only at hopp
    split_ifs at hopp with h
    all_goals first
      | exact Option.noConfusion hopp
      | (obtain rfl := Option.some.inj hopp
         show (100 - ((40:ℚ) + 55 + ((3:ℤ):ℚ))) / 100 = 2/100
         norm_num)
  · unfold detect_single_market_arbitrage
    dsimp only
    split_ifs with h
    · exact absurd h (by norm_num)
    · rfl
  · unfold detect_single_market_arbitrage
    dsimp only
    split_ifs with h
    · rfl
    · exact absurd (show (50:ℚ) + 47 + ((3:ℤ):ℚ) ≥ 100 by norm_num) h

/-! ### C7 — three-way detector picks the cheaper combination -/

/-- `option1_cost` from the source: `home.yes + away.no + draw.yes`. -/
def option1_cost (market : ThreeWayMarket) : ℚ :=
  market.home_team.yes_price + market.away_team.no_price + market.draw.yes_price

/-- `option2_cost` from the source: `away.yes + home.no + draw.yes`. -/
def option2_cost (market : ThreeWayMarket) : ℚ :=
  market.away_team.yes_price + market.home_team.no_price + market.draw.yes_price

/-- The three-way detector in option-1 form (when option 1 is strictly
cheaper). -/
theorem detect_three_way_pick1 (market : ThreeWayMarket) (fees_cents now : ℤ)
    (hp : option1_cost market < option2_cost market) :
    detect_three_way_arbitrage market fees_cents now
      = (if option1_cost market + (fees_cents : ℚ) ≥ 100 then none
        else some
          { id := "three-way-" ++ market.condition_id,
            polymarket_market_id := market.condition_id,
            polymarket_question := market.question,
            polymarket_yes_price := market.home_team.yes_price / 100,
            polymarket_no_price := market.away_team.no_price / 100,
            spread_pct := 100 - (option1_cost market + (fees_cents : ℚ)),
            spread_absolute := (100 - (option1_cost market + (fees_cents : ℚ))) / 100,
            direction := "poly_internal",
            action := "buy_poly_yes",
            gross_profit_pct := 100 - (option1_cost market + (fees_cents : ℚ)),
            estimated_gas_cost := (fees_cents : ℚ) / 100,
            platform_fees := 0,
            net_profit_pct := 100 - (option1_cost market + (fees_cents : ℚ)),
            net_profit_usd := (100 - (option1_cost market + (fees_cents : ℚ))) / 100,
            min_size := 25,
            max_size := market.liquidity * (4/10),
            available_liquidity := market.liquidity,
            slippage_estimate := 3/10,
            confidence := 7/10,
            risk_score := 6,
            discovered_at := now,
            time_sensitive := true,
            status := "active" }) := by
  unfold detect_three_way_arbitrage
  dsimp only
  rw [if_pos (show market.home_team.yes_price + market.away_team.no_price
      + market.draw.yes_price < market.away_team.yes_price
      + market.home_team.no_price + market.draw.yes_price from hp)]
  rfl

/-- The three-way detector in option-2 form (option 2 at most option 1,
including ties). -/
theorem detect_three_way_pick2 (market : ThreeWayMarket) (fees_cents now : ℤ)
    (hp : ¬ option1_cost market < option2_cost market) :
    detect_three_way_arbitrage market fees_cents now
      = (if option2_cost market + (fees_cents : ℚ) ≥ 100 then none
        else some
          { id := "three-way-" ++ market.condition_id,
            polymarket_market_id := market.condition_id,
            polymarket_question := market.question,
            polymarket_yes_price := market.away_team.yes_price / 100,
            polymarket_no_price := market.home_team.no_price / 100,
            spread_pct := 100 - (option2_cost market + (fees_cents : ℚ)),
            spread_absolute := (100 - (option2_cost market + (fees_cents : ℚ))) / 100,
            direction := "poly_internal",
            action := "buy_poly_no",
            gross_profit_pct := 100 - (option2_cost market + (fees_cents : ℚ)),
            estimated_gas_cost := (fees_cents : ℚ) / 100,
            platform_fees := 0,
            net_profit_pct := 100 - (option2_cost market + (fees_cents : ℚ)),
            net_profit_usd := (100 - (option2_cost market + (fees_cents : ℚ))) / 100,
            min_size := 25,
            max_size := market.liquidity * (4/10),
            available_liquidity := market.liquidity,
            slippage_estimate := 3/10,
            confidence := 7/10,
            risk_score := 6,
            discovered_at := now,
            time_sensitive := true,
            status := "active" }) := by
  unfold detect_three_way_arbitrage
  dsimp only
  rw [if_neg (show ¬(market.home_team.yes_price + market.away_team.no_price
      + market.draw.yes_price < market.away_team.yes_price
      + market.home_team.no_price + market.draw.yes_price) from hp)]
  rfl

/-- A concrete three-way market matching the spec's example: option 1 costs
20 + 30 + 15 = 65¢ and wins. -/
def twMarketA : ThreeWayMarket :=
  ⟨"twA", "q", ⟨"h", 20, 60⟩, ⟨"a", 40, 30⟩, ⟨"d", 15⟩, 1000, none⟩

/-- A concrete three-way market where option 2 (10 + 20 + 15 = 45¢) is
strictly cheaper than option 1 (50 + 40 + 15 = 105¢). -/
def twMarketB : ThreeWayMarket :=
  ⟨"twB", "q", ⟨"h", 50, 20⟩, ⟨"a", 10, 40⟩, ⟨"d", 15⟩, 1000, none⟩

/-- **C7.** The three-way detector prices both legal combinations, takes the
cheaper, adds fees, and emits an opportunity iff the total is strictly below
100¢, with profit `100 − total`, risk score 6 and confidence 0.7; it reports
the home combination when option 1 is strictly cheaper and the away
combination otherwise — including when option 2 is strictly lower, as in
`twMarketB`. -/
theorem three_way_detector_cheaper (market : ThreeWayMarket)
    (fees_cents now : ℤ) :
    ((detect_three_way_arbitrage market fees_cents now).isSome = true ↔
      min (option1_cost market) (option2_cost market) + (fees_cents : ℚ) < 100) ∧
    (∀ opp, detect_three_way_arbitrage market fees_cents now = some opp →
      opp.net_profit_usd
        = (100 - (min (option1_cost market) (option2_cost market)
          + (fees_cents : ℚ))) / 100 ∧
      opp.risk_score = 6 ∧ opp.confidence = 7/10) ∧
    (option1_cost market < option2_cost market →
      ∀ opp, detect_three_way_arbitrage market fees_cents now = some opp →
        opp.action = "buy_poly_yes" ∧
        opp.polymarket_yes_price = market.home_team.yes_price / 100 ∧
        opp.polymarket_no_price = market.away_team.no_price / 100) ∧
    (option2_cost market < option1_cost market →
      ∀ opp, detect_three_way_arbitrage market fees_cents now = some opp →
        opp.action = "buy_poly_no" ∧
        opp.polymarket_yes_price = market.away_team.yes_price / 100 ∧
        opp.polymarket_no_price = market.home_team.no_price / 100) ∧
    (∀ opp, detect_three_way_arbitrage twMarketA 3 now = some opp →
      opp.net_profit_usd = 32/100 ∧ opp.action = "buy_poly_yes") ∧
    ((detect_three_way_arbitrage twMarketA 3 now).isSome = true) ∧
    (∀ opp, detect_three_way_arbitrage twMarketB 3 now = some opp →
      opp.net_profit_usd = 52/100 ∧ opp.action = "buy_poly_no") ∧
    ((detect_three_way_arbitrage twMarketB 3 now).isSome = true) := by
  have hpA : option1_cost twMarketA < option2_cost twMarketA := by
    norm_num [option1_cost, option2_cost, twMarketA]
  have hpB : ¬ option1_cost twMarketB < option2_cost twMarketB := by
    norm_num [option1_cost, option2_cost, twMarketB]
  refine ⟨?_, ?_, ?_, ?_, ?_, ?_, ?_, ?_⟩
  · by_cases hp : option1_cost market < option2_cost market
    · rw [detect_three_way_pick1 market fees_cents now hp, min_eq_left hp.le]
      split_ifs with h
      · simp only [Option.isSome_none, Bool.false_eq_true, false_iff, not_lt]
        exact h
      · simp only [Option.isSome_some, true_iff]
        exact lt_of_not_le h
    · rw [detect_three_way_pick2 market fees_cents now hp,
        min_eq_right (le_of_not_lt hp)]
      split_ifs with h
      · simp only [Option.isSome_none, Bool.false_eq_true, false_iff, not_lt]
        exact h
      · simp only [Option.isSome_some, true_iff]
        exact lt_of_not_le h
  · intro opp hopp
    by_cases hp : option1_cost market < option2_cost market
    · rw [detect_three_way_pick1 market fees_cents now hp] at hopp
      rw [min_eq_left hp.le]
      split_ifs at hopp
      all_goals first
        | exact Option.noConfusion hopp
        | (obtain rfl := Option.some.inj hopp; exact ⟨rfl, rfl, rfl⟩)
    · rw [detect_three_way_pick2 market fees_cents now hp] at hopp
      rw [min_eq_right (le_of_not_lt hp)]
      split_ifs at hopp
      all_goals first
        | exact Option.noConfusion hopp
        | (obtain rfl := Option.some.inj hopp; exact ⟨rfl, rfl, rfl⟩)
  · intro hp opp hopp
    rw [detect_three_way_pick1 market fees_cents now hp] at hopp
    split_ifs at hopp
    all_goals first
      | exact Option.noConfusion hopp
      | (obtain rfl := Option.some.inj hopp; exact ⟨rfl, rfl, rfl⟩)
  · intro hp opp hopp
    rw [detect_three_way_pick2 market fees_cents now (asymm hp)] at hopp
    split_ifs at hopp
    all_goals first
      | exact Option.noConfusion hopp
      | (obtain rfl := Option.some.inj hopp; exact ⟨rfl, rfl, rfl⟩)
  · intro opp hopp
    rw [detect_three_way_pick1 twMarketA 3 now hpA] at hopp
    split_ifs at hopp
    all_goals first
      | exact Option.noConfusion hopp
      | (obtain rfl := Option.some.inj hopp
         refine ⟨?_, rfl⟩
         show (100 - (option1_cost twMarketA + ((3:ℤ):ℚ))) / 100 = 32/100
         norm_num [option1_cost, twMarketA])
  · rw [detect_three_way_pick1 twMarketA 3 now hpA]
    split_ifs with h
    · exact absurd h (by norm_num [option1_cost, twMarketA])
    · rfl
  · intro opp hopp
    rw [detect_three_way_pick2 twMarketB 3 now hpB] at hopp
    split_ifs at hopp
    all_goals first
      | exact Option.noConfusion hopp
      | (obtain rfl := Option.some.inj hopp
         refine ⟨?_, rfl⟩
         show (100 - (option2_cost twMarketB + ((3:ℤ):ℚ))) / 100 = 52/100
         norm_num [option2_cost, twMarketB])
  · rw [detect_three_way_pick2 twMarketB 3 now hpB]
    split_ifs with h
    · exact absurd h (by norm_num [option2_cost, twMarketB])
    · rfl

/-- Witness for C4: the two boundary examples at `now = 0`. -/
theorem single_market_detector_boundary_witness :
    (detect_single_market_arbitrage ⟨"c", "q", 40, 55, 1000⟩ 3 0).isSome = true ∧
    detect_single_market_arbitrage ⟨"c", "q", 50, 47, 1000⟩ 3 0 = none :=
  ⟨(single_market_detector_boundary ⟨"c", "q", 40, 55, 1000⟩ 3 0).2.2.2.1,
    (single_market_detector_boundary ⟨"c", "q", 50, 47, 1000⟩ 3 0).2.2.2.2⟩

/-- Witness for C7: both concrete three-way markets produce opportunities at
`now = 0`. -/
theorem three_way_detector_cheaper_witness :
    (detect_three_way_arbitrage twMarketA 3 0).isSome = true ∧
    (detect_three_way_arbitrage twMarketB 3 0).isSome = true :=
  ⟨(three_way_detector_cheaper twMarketA 3 0).2.2.2.2.2.1,
    (three_way_detector_cheaper twMarketA 3 0).2.2.2.2.2.2.2⟩

/-! ### C3 — scanning twice with an unchanged snapshot

The dedup claim fails on the code: every emitted opportunity id embeds the
freshly incremented `_opportunity_counter` (`poly_internal_{market}_{n}`), so
the `self.opportunities.get(opp.id)` lookup never finds the previous scan's
entry and the spread-update branch is dead; a second scan over the very same
fresh snapshot emits a brand-new signal and alert. The following closed
evaluation exhibits this on a one-market cache. -/

/-- A fresh Polymarket cache entry: yes = no = $0.45 (10% spread). -/
def c3entry : ArbEngine.PolyPriceEntry :=
  { yes_price := 45/100, no_price := 45/100, question := "q", liquidity := 0,
    updated_at := 0 }

/-- An engine tracking exactly that one market. -/
def c3engine : ArbEngine.EngineState :=
  { config := {}, polymarket_prices := [("m", c3entry)] }

theorem c3profit :
    ArbEngine.calculate_profit {} ((45:ℚ)/100 + 45/100) 1 100 .POLY_INTERNAL
      = ⟨100/9, 100/9, 7/10, 1/2, 446/45, 446/45⟩ := by
  norm_num [ArbEngine.calculate_profit, ArbEngine.ProfitBreakdown.mk.injEq]

theorem c3conf : ArbEngine.calculate_confidence 10 0 = 3/5 := by
  norm_num [ArbEngine.calculate_confidence, min_def]

theorem c3risk : ArbEngine.calculate_risk_score 10 0 = 6 := by
  unfold ArbEngine.calculate_risk_score
  rw [if_neg (show ¬((10:ℚ) > 10) from by norm_num)]
  dsimp only
  rw [if_pos (show (0:ℚ) < 1000 from by norm_num)]
  decide

/-- The opportunity the counter-bugged scan emits for `c3entry`, parameterized
by the id string the counter produces. -/
def c3oppWithId (idStr : String) : ArbEngine.ArbitrageOpportunity :=
  { id := idStr,
    polymarket_market_id := "m", polymarket_question := "q",
    polymarket_yes_price := 45/100, polymarket_no_price := 45/100,
    spread_pct := 10, spread_absolute := 1/10,
    direction := .POLY_INTERNAL, action := "buy_both",
    gross_profit_pct := (1 - ((45:ℚ)/100 + 45/100)) / (45/100 + 45/100) * 100,
    estimated_gas_cost := 1/2, platform_fees := 7/10,
    net_profit_pct := 446/45, net_profit_usd := 446/45,
    available_liquidity := 0, confidence := 3/5, risk_score := 6,
    discovered_at := 0, time_sensitive := true }

theorem c3check0 :
    ArbEngine.check_polymarket_internal {} 0 "m" c3entry 0
      = (some (c3oppWithId "poly_internal_m_1"), 1) := by
  unfold ArbEngine.check_polymarket_internal c3entry
  dsimp only
  rw [show |1 - ((45:ℚ)/100 + 45/100)| = 1/10 from by norm_num]
  rw [show (1:ℚ)/10 * 100 = 10 from by norm_num]
  rw [if_neg (show ¬(((45:ℚ)/100 ≤ 0) ∨ ((45:ℚ)/100 ≤ 0)) from by norm_num)]
  rw [if_neg (show ¬((10:ℚ) < 1/2) from by norm_num)]
  rw [if_neg (show ¬((45:ℚ)/100 + 45/100 ≥ 1) from by norm_num)]
  rw [c3profit]
  dsimp only
  rw [if_neg (show ¬((446:ℚ)/45 < 1) from by norm_num)]
  rw [c3conf, c3risk]
  rfl

theorem c3check1 :
    ArbEngine.check_polymarket_internal {} 1 "m" c3entry 0
      = (some (c3oppWithId "poly_internal_m_2"), 2) := by
  unfold ArbEngine.check_polymarket_internal c3entry
  dsimp only
  rw [show |1 - ((45:ℚ)/100 + 45/100)| = 1/10 from by norm_num]
  rw [show (1:ℚ)/10 * 100 = 10 from by norm_num]
  rw [if_neg (show ¬(((45:ℚ)/100 ≤ 0) ∨ ((45:ℚ)/100 ≤ 0)) from by norm_num)]
  rw [if_neg (show ¬((10:ℚ) < 1/2) from by norm_num)]
  rw [if_neg (show ¬((45:ℚ)/100 + 45/100 ≥ 1) from by norm_num)]
  rw [c3profit]
  dsimp only
  rw [if_neg (show ¬((446:ℚ)/45 < 1) from by norm_num)]
  rw [c3conf, c3risk]
  rfl

/-- The signal generated for the `c3oppWithId` opportunity (strength
VERY_STRONG from the 9.9% net profit, recommendation "skip" from risk 6). -/
def c3sig (idStr oppId : String) : ArbEngine.ArbitrageSignal :=
  { id := idStr, opportunity_id := oppId, type := "entry",
    strength := .VERY_STRONG, confidence_score := 3/5 * 100,
    entry_price := some (45/100), exit_price := none,
    target_profit_pct := some (446/45), stop_loss_pct := some (-(446/45) * (1/2)),
    recommendation := "skip", rationale := "spread and profit summary",
    generated_at := 0, valid_until := 0 + 60 * 1000, status := "active" }

/-- The HIGH-priority alert generated for the same opportunity (spread 10% ≥
the 2% high-spread threshold). -/
def c3al (idStr oppId : String) : ArbEngine.ArbitrageAlert :=
  { id := idStr, priority := .HIGH, category := "opportunity",
    title := "Arbitrage spread alert", message := "q",
    opportunity_id := some oppId, created_at := 0, acknowledged := false }

theorem c3gensig0 :
    ArbEngine.generate_signal {} 0 (c3oppWithId "poly_internal_m_1") 0
      = (c3sig "sig_1" "poly_internal_m_1", 1) := by
  unfold ArbEngine.generate_signal c3oppWithId
  dsimp only
  rw [if_pos (show (446:ℚ)/45 ≥ 2 from by norm_num)]
  rw [if_neg (show ¬((6:ℕ) ≤ 3 ∧ (3:ℚ)/5 ≥ 7/10) from by
    rintro ⟨h, _⟩; exact absurd h (by norm_num))]
  rw [if_neg (show ¬((6:ℕ) ≤ 5) from by norm_num)]
  rfl

theorem c3gensig1 :
    ArbEngine.generate_signal {} 1 (c3oppWithId "poly_internal_m_2") 0
      = (c3sig "sig_2" "poly_internal_m_2", 2) := by
  unfold ArbEngine.generate_signal c3oppWithId
  dsimp only
  rw [if_pos (show (446:ℚ)/45 ≥ 2 from by norm_num)]
  rw [if_neg (show ¬((6:ℕ) ≤ 3 ∧ (3:ℚ)/5 ≥ 7/10) from by
    rintro ⟨h, _⟩; exact absurd h (by norm_num))]
  rw [if_neg (show ¬((6:ℕ) ≤ 5) from by norm_num)]
  rfl

set_option maxRecDepth 10000 in
theorem c3genal0 :
    ArbEngine.generate_alert {} 0 (c3oppWithId "poly_internal_m_1")
      "opportunity" 0 = (c3al "alert_1" "poly_internal_m_1", 1) := by
  unfold ArbEngine.generate_alert c3oppWithId
  dsimp only
  rw [if_pos (show (10:ℚ) ≥ 2 from by norm_num)]
  rfl

set_option maxRecDepth 10000 in
theorem c3genal1 :
    ArbEngine.generate_alert {} 1 (c3oppWithId "poly_internal_m_2")
      "opportunity" 0 = (c3al "alert_2" "poly_internal_m_2", 2) := by
  unfold ArbEngine.generate_alert c3oppWithId
  dsimp only
  rw [if_pos (show (10:ℚ) ≥ 2 from by norm_num)]
  rfl

set_option maxRecDepth 4000 in
theorem c3scanint0 :
    ArbEngine.scan_internal {} 0 0 [("m", c3entry)]
      = ([c3oppWithId "poly_internal_m_1"], 1) := by
  simp only [ArbEngine.scan_internal]
  rw [if_neg (show ¬(ArbEngine.is_data_stale {} c3entry.updated_at 0 = true)
    from by decide)]
  rw [c3check0]

set_option maxRecDepth 4000 in
theorem c3scanint1 :
    ArbEngine.scan_internal {} 0 1 [("m", c3entry)]
      = ([c3oppWithId "poly_internal_m_2"], 2) := by
  simp only [ArbEngine.scan_internal]
  rw [if_neg (show ¬(ArbEngine.is_data_stale {} c3entry.updated_at 0 = true)
    from by decide)]
  rw [c3check1]

/-- The engine state after the first scan: one stored opportunity (keyed by
the counter-suffixed id), one signal, one alert. -/
def c3state1 : ArbEngine.EngineState :=
  { config := {},
    opportunities := [("poly_internal_m_1", c3oppWithId "poly_internal_m_1")],
    signals := [c3sig "sig_1" "poly_internal_m_1"],
    alerts := [c3al "alert_1" "poly_internal_m_1"],
    polymarket_prices := [("m", c3entry)],
    total_opportunities_found := 1,
    opportunity_counter := 1, signal_counter := 1, alert_counter := 1 }

/-- The engine state after the second scan over the unchanged snapshot: a
*second* opportunity entry, a second signal and a second alert. -/
def c3state2 : ArbEngine.EngineState :=
  { config := {},
    opportunities := [("poly_internal_m_1", c3oppWithId "poly_internal_m_1"),
      ("poly_internal_m_2", c3oppWithId "poly_internal_m_2")],
    signals := [c3sig "sig_1" "poly_internal_m_1",
      c3sig "sig_2" "poly_internal_m_2"],
    alerts := [c3al "alert_1" "poly_internal_m_1",
      c3al "alert_2" "poly_internal_m_2"],
    polymarket_prices := [("m", c3entry)],
    total_opportunities_found := 2,
    opportunity_counter := 2, signal_counter := 2, alert_counter := 2 }

set_option maxRecDepth 10000 in
theorem c3scan1 :
    ArbEngine.scan_for_opportunities c3engine 0
      = ([c3oppWithId "poly_internal_m_1"], c3state1) := by
  unfold ArbEngine.scan_for_opportunities
  dsimp only [c3engine]
  rw [c3scanint0]
  dsimp only
  rw [show ArbEngine.scan_cross {} 0 [("m", c3entry)] [] 1 [] = ([], 1) from rfl]
  dsimp only [List.foldl]
  unfold ArbEngine.process_opportunity ArbEngine.on_new_opportunity
  dsimp only
  simp only [alistLookup, alistInsert]
  rw [c3gensig0]
  dsimp only
  rw [show (c3oppWithId "poly_internal_m_1").spread_pct = (10:ℚ) from rfl]
  rw [if_pos (show (10:ℚ) ≥ 2 from by norm_num)]
  rw [c3genal0]
  rfl

set_option maxRecDepth 10000 in
theorem c3scan2 :
    ArbEngine.scan_for_opportunities c3state1 0
      = ([c3oppWithId "poly_internal_m_2"], c3state2) := by
  have hne : ¬(("poly_internal_m_1" : String)
      = (c3oppWithId "poly_internal_m_2").id) := by decide
  unfold ArbEngine.scan_for_opportunities
  dsimp only [c3state1]
  rw [c3scanint1]
  dsimp only
  rw [show ArbEngine.scan_cross {} 0 [("m", c3entry)] [] 2 [] = ([], 2) from rfl]
  dsimp only [List.foldl]
  unfold ArbEngine.process_opportunity ArbEngine.on_new_opportunity
  dsimp only
  simp only [alistLookup, alistInsert]
  rw [if_neg hne, if_neg hne]
  rw [c3gensig1]
  dsimp only
  rw [show (c3oppWithId "poly_internal_m_2").spread_pct = (10:ℚ) from rfl]
  rw [if_pos (show (10:ℚ) ≥ 2 from by norm_num)]
  rw [c3genal1]
  rfl

/-- **C3 (code evaluated at the failing input).** An engine tracking one fresh
Polymarket market (yes = no = $0.45) is scanned twice at the same instant with
an unchanged, non-stale snapshot. The first scan produces one signal, one
alert, and counts one opportunity as new — but the second scan produces a
*second* signal and a *second* alert and again counts the same market's
opportunity as new (because the opportunity id embeds the freshly incremented
counter, the dedup lookup never hits). The claim predicts zero new signals and
zero new alerts on the second call; the code disagrees. -/
theorem scan_twice_unchanged_snapshot_duplicates :
    (ArbEngine.scan_for_opportunities c3engine 0).2.signals.length = 1 ∧
    (ArbEngine.scan_for_opportunities c3engine 0).2.alerts.length = 1 ∧
    (ArbEngine.scan_for_opportunities c3engine 0).2.total_opportunities_found
      = 1 ∧
    (ArbEngine.scan_for_opportunities
      (ArbEngine.scan_for_opportunities c3engine 0).2 0).2.signals.length = 2 ∧
    (ArbEngine.scan_for_opportunities
      (ArbEngine.scan_for_opportunities c3engine 0).2 0).2.alerts.length = 2 ∧
    (ArbEngine.scan_for_opportunities
      (ArbEngine.scan_for_opportunities c3engine 0).2
        0).2.total_opportunities_found = 2 := by
  rw [c3scan1]
  dsimp only
  rw [c3scan2]
  exact ⟨rfl, rfl, rfl, rfl, rfl, rfl⟩
